import Mathlib

/-!
# Verification of the vps-monitor alert lifecycle engine

Shallow embedding of the alert lifecycle engine of the `vps-monitor`
repository (`src/vps_monitor/`): the alert state store (`state.py`),
the threshold evaluators (`collectors/system.py`, `collectors/network.py`,
`collectors/docker.py`), the per-cycle alert processing
(`app.py`, `_process_system_alerts` and `_process_docker_alerts`) and the
scheduled-report initialization (`config.py`, `scheduler.py`).

Modelling conventions:
* Timestamps (`time.time()`) and the cooldown are embedded as `Int`
  (the source compares real-valued epoch seconds; only order and
  subtraction matter to the claims).
* The Python dict `self.state['alerts']` is embedded as an association
  list `AlertState`; dict update is "replace if present, else append",
  which preserves key uniqueness of reachable states.
* Display formatting (`f"{x:.1f}%"` etc.) is abstracted to the raw
  numeric reading: checked-key maps carry the number being formatted.
* Outbound notifier calls are recorded as a list of `Notification`
  values; the recovery constructors additionally carry the alert key
  that caused the call (the Python call passes only display name and
  value), so that notifications can be attributed to keys.
-/

/-- One record of `state['alerts']`: `{'last_alert': <epoch seconds>, 'active': <bool>}`
(see `state.py`, `record_alert`). -/
structure AlertRecord where
  last_alert : Int
  active : Bool
deriving DecidableEq, Repr

/-- The in-memory alert store `state['alerts']`: a finite map from alert
key to record, embedded as an association list. -/
abbrev AlertState := List (String × AlertRecord)

/-- Keys of the store (the dict's key set, with multiplicity). -/
def keysOf (s : AlertState) : List String := s.map Prod.fst

/-- Model of `state['alerts'].get(alert_key)`: first record stored under the key. -/
def lookupRecord : AlertState → String → Option AlertRecord
  | [], _ => none
  | p :: t, k => if p.1 = k then some p.2 else lookupRecord t k

/-- Dict membership `alert_key in state['alerts']`. -/
def hasKey (s : AlertState) (k : String) : Bool :=
  (lookupRecord s k).isSome

/-- Model of `state['alerts'].get(alert_key, {}).get('last_alert', 0)`
(see `state.py` line 40). -/
def lastAlertOf (s : AlertState) (k : String) : Int :=
  ((lookupRecord s k).map AlertRecord.last_alert).getD 0

/-- Model of `AlertStateManager.should_alert`: `(now - last_alert) >= cooldown`.
A pure read: the function consumes the state and returns only a `Bool`. -/
def should_alert (cooldown now : Int) (s : AlertState) (k : String) : Bool :=
  decide (cooldown ≤ now - lastAlertOf s k)

/-- Dict assignment `state['alerts'][k] = r`: replace the record if the
key is present, append it otherwise. -/
def setRecord (s : AlertState) (k : String) (r : AlertRecord) : AlertState :=
  if hasKey s k then
    s.map (fun p => if p.1 = k then (p.1, r) else p)
  else s ++ [(k, r)]

/-- Model of `AlertStateManager.record_alert`: store `{'last_alert': now, 'active': True}`
under the key (the durable `_save_state` write is modelled by `save_state`
below). -/
def record_alert (now : Int) (s : AlertState) (k : String) : AlertState :=
  setRecord s k ⟨now, true⟩

/-- Model of `AlertStateManager.clear_alert`: if the key is present, set its
`active` field to `False`; no-op otherwise. -/
def clear_alert (s : AlertState) (k : String) : AlertState :=
  if hasKey s k then
    s.map (fun p => if p.1 = k then (p.1, ⟨p.2.last_alert, false⟩) else p)
  else s

/-- Model of `AlertStateManager.is_active`: `state['alerts'].get(k, {}).get('active', False)`. -/
def is_active (s : AlertState) (k : String) : Bool :=
  ((lookupRecord s k).map AlertRecord.active).getD false

/-- Model of `AlertStateManager.get_active_alerts`: keys whose record has `active` truthy. -/
def get_active_alerts (s : AlertState) : List String :=
  (s.filter (fun p => p.2.active)).map Prod.fst

/-! ## Basic store lemmas -/

theorem lookupRecord_nil (k : String) : lookupRecord [] k = none := rfl

theorem lookupRecord_cons (p : String × AlertRecord) (t : AlertState) (k : String) :
    lookupRecord (p :: t) k = if p.1 = k then some p.2 else lookupRecord t k := rfl

theorem lookupRecord_modify_self (k : String) (f : AlertRecord → AlertRecord) :
    ∀ s : AlertState,
      lookupRecord (s.map (fun p => if p.1 = k then (p.1, f p.2) else p)) k
        = (lookupRecord s k).map f
  | [] => rfl
  | p :: t => by
    by_cases hp : p.1 = k
    · simp [lookupRecord_cons, hp]
    · simp [lookupRecord_cons, hp, lookupRecord_modify_self k f t]

theorem lookupRecord_modify_ne (k k' : String) (f : AlertRecord → AlertRecord)
    (hne : k' ≠ k) :
    ∀ s : AlertState,
      lookupRecord (s.map (fun p => if p.1 = k then (p.1, f p.2) else p)) k'
        = lookupRecord s k'
  | [] => rfl
  | p :: t => by
    by_cases hp : p.1 = k
    · simp [lookupRecord_cons, hp, Ne.symm hne, lookupRecord_modify_ne k k' f hne t]
    · simp [lookupRecord_cons, hp, lookupRecord_modify_ne k k' f hne t]

theorem lookupRecord_append (s t : AlertState) (k : String) :
    lookupRecord (s ++ t) k =
      ((lookupRecord s k).or (lookupRecord t k)) := by
  induction s with
  | nil => simp [lookupRecord_nil, lookupRecord]
  | cons p u ih =>
    by_cases hp : p.1 = k
    · simp [lookupRecord_cons, hp]
    · simp [lookupRecord_cons, hp, ih]

theorem lookupRecord_setRecord_self (s : AlertState) (k : String) (r : AlertRecord) :
    lookupRecord (setRecord s k r) k = some r := by
  unfold setRecord
  by_cases h : hasKey s k = true
  · rw [if_pos h]
    unfold hasKey at h
    rw [lookupRecord_modify_self k (fun _ => r) s]
    rcases Option.isSome_iff_exists.mp h with ⟨v, hv⟩
    rw [hv]; rfl
  · rw [if_neg h]
    unfold hasKey at h
    have hn : lookupRecord s k = none := by
      rcases Option.eq_none_or_eq_some (lookupRecord s k) with h0 | ⟨v, hv⟩
      · exact h0
      · exact absurd (by rw [hv]; rfl) h
    rw [lookupRecord_append, hn]
    simp [lookupRecord_cons]

theorem lookupRecord_setRecord_ne (s : AlertState) (k k' : String) (r : AlertRecord)
    (hne : k' ≠ k) : lookupRecord (setRecord s k r) k' = lookupRecord s k' := by
  unfold setRecord
  by_cases h : hasKey s k = true
  · rw [if_pos h]
    exact lookupRecord_modify_ne k k' (fun _ => r) hne s
  · rw [if_neg h]
    rw [lookupRecord_append]
    simp [lookupRecord_cons, lookupRecord, Ne.symm hne]

theorem lookupRecord_clear_self (s : AlertState) (k : String) :
    lookupRecord (clear_alert s k) k =
      (lookupRecord s k).map (fun r => ⟨r.last_alert, false⟩) := by
  unfold clear_alert
  by_cases h : hasKey s k = true
  · rw [if_pos h]
    exact lookupRecord_modify_self k (fun r => ⟨r.last_alert, false⟩) s
  · rw [if_neg h]
    unfold hasKey at h
    rcases Option.eq_none_or_eq_some (lookupRecord s k) with h0 | ⟨v, hv⟩
    · rw [h0]; rfl
    · exact absurd (by rw [hv]; rfl) h

theorem lookupRecord_clear_ne (s : AlertState) (k k' : String) (hne : k' ≠ k) :
    lookupRecord (clear_alert s k) k' = lookupRecord s k' := by
  unfold clear_alert
  by_cases h : hasKey s k = true
  · rw [if_pos h]
    exact lookupRecord_modify_ne k k' (fun r => ⟨r.last_alert, false⟩) hne s
  · rw [if_neg h]

theorem lastAlertOf_record_self (now : Int) (s : AlertState) (k : String) :
    lastAlertOf (record_alert now s k) k = now := by
  unfold lastAlertOf record_alert
  rw [lookupRecord_setRecord_self]
  rfl

theorem lastAlertOf_record_ne (now : Int) (s : AlertState) (k k' : String)
    (hne : k' ≠ k) : lastAlertOf (record_alert now s k) k' = lastAlertOf s k' := by
  unfold lastAlertOf record_alert
  rw [lookupRecord_setRecord_ne s k k' _ hne]

theorem lastAlertOf_clear (s : AlertState) (k' k : String) :
    lastAlertOf (clear_alert s k') k = lastAlertOf s k := by
  by_cases h : k = k'
  · subst h
    unfold lastAlertOf
    rw [lookupRecord_clear_self]
    cases lookupRecord s k <;> rfl
  · unfold lastAlertOf
    rw [lookupRecord_clear_ne s k' k h]

theorem is_active_record_self (now : Int) (s : AlertState) (k : String) :
    is_active (record_alert now s k) k = true := by
  unfold is_active record_alert
  rw [lookupRecord_setRecord_self]
  rfl

theorem is_active_record_ne (now : Int) (s : AlertState) (k k' : String)
    (hne : k' ≠ k) : is_active (record_alert now s k) k' = is_active s k' := by
  unfold is_active record_alert
  rw [lookupRecord_setRecord_ne s k k' _ hne]

theorem is_active_clear_self (s : AlertState) (k : String) :
    is_active (clear_alert s k) k = false := by
  unfold is_active
  rw [lookupRecord_clear_self]
  cases lookupRecord s k <;> rfl

theorem is_active_clear_ne (s : AlertState) (k k' : String) (hne : k' ≠ k) :
    is_active (clear_alert s k) k' = is_active s k' := by
  unfold is_active
  rw [lookupRecord_clear_ne s k k' hne]

theorem lastAlertOf_foldl_clear :
    ∀ (ks : List String) (s : AlertState) (k : String),
      lastAlertOf (ks.foldl clear_alert s) k = lastAlertOf s k
  | [], _, _ => rfl
  | k0 :: t, s, k => by
    rw [List.foldl_cons, lastAlertOf_foldl_clear t, lastAlertOf_clear]

theorem is_active_foldl_clear :
    ∀ (ks : List String) (s : AlertState) (k : String),
      is_active (ks.foldl clear_alert s) k = (is_active s k && !(ks.contains k))
  | [], s, k => by simp
  | k0 :: t, s, k => by
    by_cases h : k = k0
    · subst h
      rw [List.foldl_cons, is_active_foldl_clear t, is_active_clear_self]
      simp
    · rw [List.foldl_cons, is_active_foldl_clear t, is_active_clear_ne s k0 k h]
      simp [List.contains_cons, h]

theorem hasKey_iff_mem_keys : ∀ (s : AlertState) (k : String),
    hasKey s k = true ↔ k ∈ keysOf s
  | [], k => by simp [hasKey, lookupRecord, keysOf]
  | p :: t, k => by
    by_cases hp : p.1 = k
    · simp [hasKey, lookupRecord_cons, hp, keysOf]
    · have := hasKey_iff_mem_keys t k
      simp only [hasKey, lookupRecord_cons, if_neg hp, keysOf, List.map_cons,
        List.mem_cons] at this ⊢
      rw [this]
      constructor
      · exact Or.inr
      · rintro (h | h)
        · exact absurd h.symm hp
        · exact h

theorem keysOf_clear (s : AlertState) (k : String) :
    keysOf (clear_alert s k) = keysOf s := by
  unfold clear_alert
  split
  · unfold keysOf
    rw [List.map_map]
    refine List.map_congr_left (fun p _ => ?_)
    by_cases hp : p.1 = k <;> simp [hp]
  · rfl

theorem keysOf_setRecord (s : AlertState) (k : String) (r : AlertRecord) :
    keysOf (setRecord s k r) = if hasKey s k then keysOf s else keysOf s ++ [k] := by
  by_cases h : hasKey s k = true
  · simp only [setRecord, if_pos h]
    unfold keysOf
    rw [List.map_map]
    refine List.map_congr_left (fun p _ => ?_)
    by_cases hp : p.1 = k <;> simp [hp]
  · simp only [setRecord, if_neg h]
    simp [keysOf]

theorem nodup_keys_setRecord (s : AlertState) (k : String) (r : AlertRecord)
    (h : (keysOf s).Nodup) : (keysOf (setRecord s k r)).Nodup := by
  rw [keysOf_setRecord]
  by_cases hk : hasKey s k = true
  · rw [if_pos hk]; exact h
  · rw [if_neg hk]
    have hkm : k ∉ keysOf s := fun hm => hk ((hasKey_iff_mem_keys s k).mpr hm)
    simp [List.nodup_append, h, hkm]

theorem nodup_keys_clear (s : AlertState) (k : String)
    (h : (keysOf s).Nodup) : (keysOf (clear_alert s k)).Nodup := by
  rw [keysOf_clear]; exact h

theorem sublist_get_active_keys (s : AlertState) :
    List.Sublist (get_active_alerts s) (keysOf s) :=
  List.Sublist.map Prod.fst (List.filter_sublist s)

theorem mem_get_active_of_is_active :
    ∀ (s : AlertState) (k : String), is_active s k = true → k ∈ get_active_alerts s
  | [], k => by simp [is_active, lookupRecord]
  | p :: t, k => by
    intro h
    by_cases hp : p.1 = k
    · unfold is_active at h
      rw [lookupRecord_cons, if_pos hp] at h
      simp only [Option.map_some', Option.getD_some] at h
      simp [get_active_alerts, List.filter_cons, h, hp]
    · unfold is_active at h
      rw [lookupRecord_cons, if_neg hp] at h
      have ih := mem_get_active_of_is_active t k h
      unfold get_active_alerts at ih ⊢
      rw [List.filter_cons]
      by_cases ha : p.2.active = true
      · rw [if_pos ha]
        simp only [List.map_cons, List.mem_cons]
        exact Or.inr ih
      · rw [if_neg ha]
        exact ih

theorem is_active_of_mem_get_active :
    ∀ (s : AlertState) (k : String), (keysOf s).Nodup →
      k ∈ get_active_alerts s → is_active s k = true
  | [], k => by simp [get_active_alerts]
  | p :: t, k => by
    intro hnd hm
    have hnd0 : (p.1 :: keysOf t).Nodup := by simpa [keysOf] using hnd
    have hnotm : p.1 ∉ keysOf t := (List.nodup_cons.mp hnd0).1
    have hnd1 : (keysOf t).Nodup := (List.nodup_cons.mp hnd0).2
    unfold get_active_alerts at hm
    rw [List.filter_cons] at hm
    by_cases ha : p.2.active = true
    · rw [if_pos ha] at hm
      simp only [List.map_cons, List.mem_cons] at hm
      rcases hm with h | h
      · unfold is_active
        rw [lookupRecord_cons, if_pos h.symm]
        simpa using ha
      · by_cases hp : p.1 = k
        · have hk : k ∈ keysOf t := (sublist_get_active_keys t).subset h
          exact absurd (hp ▸ hk) hnotm
        · unfold is_active
          rw [lookupRecord_cons, if_neg hp]
          exact is_active_of_mem_get_active t k hnd1 h
    · rw [if_neg ha] at hm
      by_cases hp : p.1 = k
      · have hk : k ∈ keysOf t := (sublist_get_active_keys t).subset hm
        exact absurd (hp ▸ hk) hnotm
      · unfold is_active
        rw [lookupRecord_cons, if_neg hp]
        exact is_active_of_mem_get_active t k hnd1 hm

theorem nodup_get_active (s : AlertState) (h : (keysOf s).Nodup) :
    (get_active_alerts s).Nodup :=
  h.sublist (sublist_get_active_keys s)

/-! ## Claim C1: the cooldown gate of `should_alert` -/

/-- Claim C1. For every alert key `k`, `should_alert k` is true iff
`now - last_alert(k) ≥ cooldown`; a key with no record (whose stored
last-alert defaults to `0`) yields true for any wall-clock `now ≥ cooldown`;
and after `record_alert` at time `t`, `should_alert` at a later time `t'`
is true exactly when `t' - t ≥ cooldown` (false inside the window, true
after). `should_alert` is modelled as a pure function of the store — it
returns only a `Bool` and cannot mutate the state by construction. -/
theorem should_alert_cooldown_gate (cooldown now t t' : Int) (s : AlertState)
    (k : String) :
    (should_alert cooldown now s k = true ↔ cooldown ≤ now - lastAlertOf s k)
    ∧ (lookupRecord s k = none → cooldown ≤ now → should_alert cooldown now s k = true)
    ∧ (should_alert cooldown t' (record_alert t s k) k = true ↔ cooldown ≤ t' - t) := by
  refine ⟨by simp [should_alert], ?_, ?_⟩
  · intro hmiss hcd
    unfold should_alert lastAlertOf
    rw [hmiss]
    simpa using by omega
  · unfold should_alert
    rw [lastAlertOf_record_self]
    simp

/-- Witness for C1 at concrete inputs: a key with no record passes the gate
at `now = 400 ≥ cooldown = 300`; after recording at `t = 100` the gate is
true at `t' = 450` (350 seconds later) and false at `t' = 350` (250 seconds
later, still inside the 300-second window). -/
theorem should_alert_cooldown_gate_witness :
    should_alert 300 400 [] "system_memory" = true
    ∧ should_alert 300 450 (record_alert 100 [] "system_memory") "system_memory" = true
    ∧ should_alert 300 350 (record_alert 100 [] "system_memory") "system_memory" = false := by
  refine ⟨(should_alert_cooldown_gate 300 400 0 0 [] "system_memory").2.1 rfl (by decide),
    (should_alert_cooldown_gate 300 400 100 450 [] "system_memory").2.2.mpr (by decide), ?_⟩
  have h := (should_alert_cooldown_gate 300 400 100 350 [] "system_memory").2.2
  by_cases hb : should_alert 300 350 (record_alert 100 [] "system_memory") "system_memory" = true
  · exact absurd (h.mp hb) (by decide)
  · simpa using hb

/-! ## Persistence (`_save_state` / `_load_state`, claims C8 and C9)

`_save_state` serializes `self.state` with `json.dump`; `_load_state`
parses the file with `json.load`, returning `{'alerts': {}}` when the file
is missing, or when parsing raises `JSONDecodeError`/`IOError` — those two
exception classes are the *only* ones caught. The JSON text layer
(`json.dump`/`json.load`, a lossless pair on the trees involved) is
abstracted to trees. Two models are given: `raw_load_state` carries the
full error taxonomy of `_load_state` — including the `UnicodeDecodeError`
that non-UTF-8 bytes raise through `json.load`, which matches neither
except clause and escapes construction, and the raw (possibly wrong-shape)
tree a successful parse stores — and is what claim C8 is settled against;
`load_state`/`save_state` view the store through decoded records on the
well-shaped trees `_save_state` itself writes, which is the domain claim C9
(the save/load round trip) quantifies over. -/

/-- JSON values as persisted by `_save_state` (numbers, booleans, objects
suffice for the state file's shape). -/
inductive JVal where
  | num (n : Int)
  | bool (b : Bool)
  | obj (fields : List (String × JVal))

/-- Key lookup in a JSON object's field list (Python `dict.get`). -/
def jLookup : List (String × JVal) → String → Option JVal
  | [], _ => none
  | p :: t, k => if p.1 = k then some p.2 else jLookup t k

/-- Model of `j.get(k)` on a parsed JSON value. -/
def jGet : JVal → String → Option JVal
  | .obj fs, k => jLookup fs k
  | _, _ => none

/-- The JSON object `json.dump` writes for one alert record:
`{"last_alert": ..., "active": ...}`. -/
def recordToJson (r : AlertRecord) : JVal :=
  .obj [("last_alert", .num r.last_alert), ("active", .bool r.active)]

/-- Reading one record back, with the `.get('last_alert', 0)` /
`.get('active', False)` defaults the source applies on access. -/
def recordFromJson (j : JVal) : AlertRecord where
  last_alert :=
    match jGet j "last_alert" with
    | some (.num n) => n
    | _ => 0
  active :=
    match jGet j "active" with
    | some (.bool b) => b
    | _ => false

/-- The full state file tree `{"alerts": {key: record, ...}}`. -/
def stateToJson (s : AlertState) : JVal :=
  .obj [("alerts", .obj (s.map (fun p => (p.1, recordToJson p.2))))]

/-- Decoding a well-shaped state-file tree — the shape `_save_state`
writes — back into the store. (A tree of any other shape is *not* repaired
by the source: `_load_state` stores the raw parsed value, see
`raw_load_state` below; this decoded view is used only for the save/load
round trip, whose trees are always well-shaped.) -/
def stateFromJson (j : JVal) : AlertState :=
  match jGet j "alerts" with
  | some (.obj fs) => fs.map (fun p => (p.1, recordFromJson p.2))
  | _ => []

/-- The possible contents of `alert_state.json` as seen by `_load_state`:
the file does not exist, `open`/read raises `IOError`, `json.load` raises
`JSONDecodeError`, or parsing succeeds with a JSON tree. -/
inductive StateFileContent where
  | missing
  | unreadable
  | malformed
  | parsed (j : JVal)

/-- Model of `AlertStateManager._save_state`: write the serialized state. -/
def save_state (s : AlertState) : StateFileContent :=
  .parsed (stateToJson s)

/-- Model of `AlertStateManager._load_state` on the non-raising paths, in the
decoded record view (sufficient for the save/load round trip of claim C9;
the full error taxonomy, including the path that raises, is
`raw_load_state`). -/
def load_state : StateFileContent → AlertState
  | .parsed j => stateFromJson j
  | .missing => []
  | .unreadable => []
  | .malformed => []

/-- What reaches `_load_state` from `open`/`f.read()`/`json.load`, before
any exception handling: the file does not exist; `open`/read raises
`IOError`; the bytes do not decode as UTF-8, so reading inside `json.load`
raises `UnicodeDecodeError`; the text decodes but is not JSON, so
`json.load` raises `JSONDecodeError`; or parsing succeeds with a JSON tree
of arbitrary shape. -/
inductive RawStateFile where
  | missing
  | ioError
  | undecodableBytes
  | jsonError
  | jsonValue (j : JVal)

/-- The exception that escapes `AlertStateManager.__init__`:
`UnicodeDecodeError` is a `ValueError`, not a `json.JSONDecodeError` and
not an `IOError`/`OSError`, so `except (json.JSONDecodeError, IOError)`
does not match it. -/
inductive PyErr where
  | unicodeDecodeError
deriving DecidableEq, Repr

/-- Model of `AlertStateManager._load_state` with its full error taxonomy
(`state.py` lines 18–26): a missing file returns `{'alerts': {}}` without
opening; `IOError` and `JSONDecodeError` are caught, warned about, and
yield `{'alerts': {}}`; a `UnicodeDecodeError` from undecodable bytes is
caught by neither clause and propagates out of construction; a successful
`json.load` result is stored raw, whatever its shape. -/
def raw_load_state : RawStateFile → Except PyErr JVal
  | .missing => .ok (JVal.obj [("alerts", JVal.obj [])])
  | .ioError => .ok (JVal.obj [("alerts", JVal.obj [])])
  | .jsonError => .ok (JVal.obj [("alerts", JVal.obj [])])
  | .undecodableBytes => .error .unicodeDecodeError
  | .jsonValue j => .ok j

/-- Claim C8, counterexample. Not every damaged state file loads as the
empty state with construction succeeding: a state file of undecodable
(non-UTF-8) bytes — a canonical corrupt file — makes `_load_state` raise
`UnicodeDecodeError` out of `AlertStateManager.__init__`, so the monitor
fails to start; and a file holding valid JSON of the wrong shape is stored
raw, not turned into the empty state. -/
theorem corrupt_state_file_not_empty_counterexample :
    raw_load_state .undecodableBytes = .error .unicodeDecodeError
    ∧ (raw_load_state .undecodableBytes).isOk = false
    ∧ raw_load_state (.jsonValue (JVal.obj [("x", JVal.num 1)]))
        = .ok (JVal.obj [("x", JVal.num 1)])
    ∧ raw_load_state (.jsonValue (JVal.obj [("x", JVal.num 1)]))
        ≠ .ok (JVal.obj [("alerts", JVal.obj [])]) := by
  refine ⟨rfl, rfl, rfl, fun h => ?_⟩
  simp only [raw_load_state, Except.ok.injEq] at h
  injection h with h1
  injection h1 with h2 h3
  have hx : "x" = "alerts" := congrArg Prod.fst h2
  exact absurd hx (by decide)

/-- Claim C8, amended. A missing state file, an `IOError`, and a
`JSONDecodeError` (text that is not JSON) each load as the empty state
`{'alerts': {}}` with a logged warning, and construction succeeds on those
paths; but a file of undecodable bytes raises `UnicodeDecodeError` — which
the except clause does not catch — out of construction, so the monitor
does **not** start on every damaged file; and a successfully parsed tree is
stored raw, whatever its shape. The empty tree decodes to the store with no
records. -/
theorem load_state_error_paths :
    raw_load_state .missing = .ok (JVal.obj [("alerts", JVal.obj [])])
    ∧ raw_load_state .ioError = .ok (JVal.obj [("alerts", JVal.obj [])])
    ∧ raw_load_state .jsonError = .ok (JVal.obj [("alerts", JVal.obj [])])
    ∧ raw_load_state .undecodableBytes = .error .unicodeDecodeError
    ∧ (∀ j : JVal, raw_load_state (.jsonValue j) = .ok j)
    ∧ stateFromJson (JVal.obj [("alerts", JVal.obj [])]) = []
    ∧ get_active_alerts (stateFromJson (JVal.obj [("alerts", JVal.obj [])])) = [] := by
  exact ⟨rfl, rfl, rfl, rfl, fun _ => rfl, rfl, rfl⟩

theorem record_json_roundtrip (r : AlertRecord) :
    recordFromJson (recordToJson r) = r := rfl

/-- Claim C9. Round-trip: saving any state and reloading it yields an
identical store — the same records, hence the same active-key set and the
same last-alert timestamps. -/
theorem save_load_roundtrip (s : AlertState) : load_state (save_state s) = s := by
  show stateFromJson (stateToJson s) = s
  unfold stateFromJson stateToJson
  simp only [jGet, jLookup, if_pos, List.map_map]
  refine (List.map_congr_left fun p _ => ?_).trans (List.map_id s)
  simp [Function.comp, record_json_roundtrip]

/-! ## Per-cycle alert processing (`app.py`) -/

/-- One breach entry appended by `check_thresholds` (`{'key', 'metric',
'value', 'threshold'}`); the formatted value/threshold strings are
abstracted to the underlying numbers. -/
structure SysAlert where
  key : String
  metric : String
  value : ℚ
  threshold : ℚ
deriving DecidableEq, Repr

/-- One Docker breach entry from `check_containers`. -/
structure DockerAlert where
  key : String
  container : String
  kind : String
  current : String
  expected : String
deriving DecidableEq, Repr

/-- Lookup in a cycle's `checked_keys` map (`active_key in checked_keys`
plus `checked_keys[active_key]`). -/
def checkedLookup : List (String × ℚ) → String → Option ℚ
  | [], _ => none
  | p :: t, k => if p.1 = k then some p.2 else checkedLookup t k

/-- Python `str.startswith`, character-wise. (Lean's own
`String.startsWith` works on byte positions, which the kernel cannot
evaluate; the character-list version is extensionally the same test.) -/
def strStartsWith (s pre : String) : Bool :=
  pre.data.isPrefixOf s.data

/-- Python slicing `s[n:]`, character-wise. -/
def strDrop (s : String) (n : Nat) : String :=
  ⟨s.data.drop n⟩

/-- Model of `VPSMonitor._get_metric_display_name`. -/
def displayName (k : String) : String :=
  if k = "system_memory" then "内存使用率"
  else if k = "system_swap" then "Swap使用率"
  else if k = "system_cpu" then "CPU使用率"
  else if k = "network_traffic_in" then "入站流量"
  else if k = "network_traffic_out" then "出站流量"
  else if k = "network_connections" then "网络连接数"
  else if strStartsWith k "system_disk_" then "磁盘使用率(" ++ strDrop k 12 ++ ")"
  else k

/-- The prefix test of the system/network recovery scan
(`active_key.startswith('system_') or active_key.startswith('network_')`). -/
def isSysNetKey (k : String) : Bool :=
  strStartsWith k "system_" || strStartsWith k "network_"

/-- Python `str.replace('docker_', '')`: remove every (left-to-right,
non-overlapping) occurrence of `docker_`, with explicit fuel to keep the
recursion structural (the fuel `l.length` always suffices: each step
consumes at least one character). -/
def dropDockerFuel : Nat → List Char → List Char
  | 0, l => l
  | _ + 1, [] => []
  | n + 1, c :: cs =>
    if List.isPrefixOf "docker_".data (c :: cs) then dropDockerFuel n (cs.drop 6)
    else c :: dropDockerFuel n cs

/-- Model of `key.replace('docker_', '')` on the character list of the key. -/
def dropDockerOcc (l : List Char) : List Char :=
  dropDockerFuel l.length l

/-- Python `s.rsplit('_', 1)[0]`: everything before the last underscore
(the whole string when it has no underscore). -/
def rsplitHead (l : List Char) : List Char :=
  if l.contains '_' then ((l.reverse.dropWhile (fun c => c ≠ '_')).drop 1).reverse
  else l

/-- Model of `active_key.replace('docker_', '').rsplit('_', 1)[0]`
(`app.py` line 144): the container name the Docker recovery message uses. -/
def dockerRecoveryName (key : String) : String :=
  ⟨rsplitHead (dropDockerOcc key.data)⟩

/-- Outbound notifier calls, in emission order. Recovery constructors carry
the originating alert key alongside what the Python call passes. -/
inductive Notification where
  | alertBatch (hostname : String) (alerts : List SysAlert)
  | recovery (hostname : String) (key : String) (metric : String) (value : ℚ)
  | dockerAlert (hostname : String) (container : String) (current : String)
      (expected : String)
  | dockerRecovery (hostname : String) (key : String) (container : String)
      (status : String)
deriving DecidableEq, Repr

/-- One iteration of the send loop of `_process_system_alerts`
(lines 100–103): when `should_alert` passes, record the alert and add it to
the outgoing batch, else suppress. -/
def sendStep (cooldown now : Int) (acc : AlertState × List SysAlert)
    (a : SysAlert) : AlertState × List SysAlert :=
  if should_alert cooldown now acc.1 a.key then
    (record_alert now acc.1 a.key, acc.2 ++ [a])
  else acc

/-- The send loop of `_process_system_alerts` (lines 99–103). -/
def sendPhase (cooldown now : Int) (s : AlertState) (alerts : List SysAlert) :
    AlertState × List SysAlert :=
  alerts.foldl (sendStep cooldown now) (s, [])

/-- One iteration of the recovery loop of `_process_system_alerts`
(lines 109–115). -/
def systemRecoveryStep (hostname : String) (checked : List (String × ℚ))
    (currentKeys : List String) (acc : AlertState × List Notification)
    (k : String) : AlertState × List Notification :=
  if isSysNetKey k then
    match checkedLookup checked k with
    | some v =>
      if currentKeys.contains k then acc
      else (clear_alert acc.1 k,
        acc.2 ++ [.recovery hostname k (displayName k) v])
    | none => acc
  else acc

/-- Model of `VPSMonitor._process_system_alerts`: send phase over the breach list,
one batched notification if anything passed the gate, then (when
`send_recovery`) the recovery scan over a snapshot of the active keys. -/
def process_system_alerts (sendRecovery : Bool) (hostname : String)
    (cooldown now : Int) (s : AlertState) (alerts : List SysAlert)
    (checked : List (String × ℚ)) : AlertState × List Notification :=
  let currentKeys := alerts.map SysAlert.key
  let sp := sendPhase cooldown now s alerts
  let sendNotifs : List Notification :=
    if sp.2.isEmpty then [] else [.alertBatch hostname sp.2]
  if sendRecovery then
    let rp := (get_active_alerts sp.1).foldl
      (systemRecoveryStep hostname checked currentKeys) (sp.1, [])
    (rp.1, sendNotifs ++ rp.2)
  else (sp.1, sendNotifs)

/-- One iteration of the recovery loop of `_process_docker_alerts`
(lines 142–146). -/
def dockerRecoveryStep (hostname : String) (currentKeys : List String)
    (acc : AlertState × List Notification) (k : String) :
    AlertState × List Notification :=
  if strStartsWith k "docker_" && !(currentKeys.contains k) then
    (clear_alert acc.1 k,
      acc.2 ++ [.dockerRecovery hostname k (dockerRecoveryName k) "running"])
  else acc

/-- One iteration of the send loop of `_process_docker_alerts`
(lines 148–156): Docker alerts are dispatched individually. -/
def dockerAlertStep (hostname : String) (cooldown now : Int)
    (acc : AlertState × List Notification) (a : DockerAlert) :
    AlertState × List Notification :=
  if should_alert cooldown now acc.1 a.key then
    (record_alert now acc.1 a.key,
      acc.2 ++ [.dockerAlert hostname a.container a.current a.expected])
  else acc

/-- Model of `VPSMonitor._process_docker_alerts`: recovery scan first (when
`send_recovery`), then per-alert individual sends gated by `should_alert`. -/
def process_docker_alerts (sendRecovery : Bool) (hostname : String)
    (cooldown now : Int) (s : AlertState) (alerts : List DockerAlert) :
    AlertState × List Notification :=
  let currentKeys := alerts.map DockerAlert.key
  let rp :=
    if sendRecovery then
      (get_active_alerts s).foldl (dockerRecoveryStep hostname currentKeys) (s, [])
    else (s, [])
  let ap := alerts.foldl (dockerAlertStep hostname cooldown now) (rp.1, [])
  (ap.1, rp.2 ++ ap.2)

/-- Number of batched system/network notifications that include key `k`. -/
def alertBatchCountFor (k : String) (ns : List Notification) : Nat :=
  (ns.filter fun n =>
    match n with
    | .alertBatch _ batch => batch.any (fun a => a.key == k)
    | _ => false).length

/-- Number of system/network recovery notifications for key `k`. -/
def recoveryCountFor (k : String) (ns : List Notification) : Nat :=
  (ns.filter fun n =>
    match n with
    | .recovery _ k' _ _ => k' == k
    | _ => false).length

/-- Running `_process_system_alerts` over successive cycles, each given as
`(now, alerts, checked_keys)`, threading the store and concatenating the
emitted notifications. -/
def run_system_cycles (sendRecovery : Bool) (hostname : String) (cooldown : Int) :
    AlertState → List (Int × List SysAlert × List (String × ℚ)) →
      AlertState × List Notification
  | s, [] => (s, [])
  | s, c :: rest =>
    let step := process_system_alerts sendRecovery hostname cooldown c.1 s c.2.1 c.2.2
    let next := run_system_cycles sendRecovery hostname cooldown step.1 rest
    (next.1, step.2 ++ next.2)

/-! ## Lemmas about the send phase -/

theorem sendPhase_def (cooldown now : Int) (s : AlertState) (alerts : List SysAlert) :
    sendPhase cooldown now s alerts = alerts.foldl (sendStep cooldown now) (s, []) := rfl

theorem sendPhase_accum (cooldown now : Int) :
    ∀ (alerts : List SysAlert) (s : AlertState) (ns : List SysAlert),
      alerts.foldl (sendStep cooldown now) (s, ns)
        = ((sendPhase cooldown now s alerts).1,
           ns ++ (sendPhase cooldown now s alerts).2)
  | [], s, ns => by simp [sendPhase]
  | a :: rest, s, ns => by
    rw [sendPhase_def, List.foldl_cons, List.foldl_cons]
    by_cases hs : should_alert cooldown now s a.key = true
    · have h1 : sendStep cooldown now (s, ns) a
          = (record_alert now s a.key, ns ++ [a]) := by
        simp [sendStep, hs]
      have h2 : sendStep cooldown now (s, []) a
          = (record_alert now s a.key, [a]) := by
        simp [sendStep, hs]
      rw [h1, h2, sendPhase_accum cooldown now rest (record_alert now s a.key) (ns ++ [a]),
        sendPhase_accum cooldown now rest (record_alert now s a.key) [a]]
      simp
    · have h1 : sendStep cooldown now (s, ns) a = (s, ns) := by
        simp [sendStep, hs]
      have h2 : sendStep cooldown now (s, []) a = (s, []) := by
        simp [sendStep, hs]
      rw [h1, h2, ← sendPhase_def]
      exact sendPhase_accum cooldown now rest s ns

theorem sendPhase_cons (cooldown now : Int) (s : AlertState) (a : SysAlert)
    (rest : List SysAlert) :
    sendPhase cooldown now s (a :: rest)
      = (if should_alert cooldown now s a.key then
          ((sendPhase cooldown now (record_alert now s a.key) rest).1,
            a :: (sendPhase cooldown now (record_alert now s a.key) rest).2)
        else sendPhase cooldown now s rest) := by
  rw [sendPhase_def, List.foldl_cons]
  by_cases hs : should_alert cooldown now s a.key = true
  · have h2 : sendStep cooldown now (s, []) a = (record_alert now s a.key, [a]) := by
      simp [sendStep, hs]
    rw [h2, sendPhase_accum cooldown now rest (record_alert now s a.key) [a], if_pos hs]
    rfl
  · have h2 : sendStep cooldown now (s, []) a = (s, []) := by
      simp [sendStep, hs]
    rw [h2, if_neg hs, ← sendPhase_def]

theorem lookup_sendPhase_not_mem (cooldown now : Int) :
    ∀ (alerts : List SysAlert) (s : AlertState) (k : String),
      (∀ a ∈ alerts, k ≠ a.key) →
      lookupRecord (sendPhase cooldown now s alerts).1 k = lookupRecord s k
  | [], _, _, _ => rfl
  | a :: rest, s, k, h => by
    have hk : k ≠ a.key := h a (by simp)
    have hrest : ∀ b ∈ rest, k ≠ b.key := fun b hb => h b (by simp [hb])
    rw [sendPhase_cons]
    by_cases hs : should_alert cooldown now s a.key = true
    · rw [if_pos hs]
      show lookupRecord (sendPhase cooldown now (record_alert now s a.key) rest).1 k = _
      rw [lookup_sendPhase_not_mem cooldown now rest _ k hrest]
      exact lookupRecord_setRecord_ne s a.key k _ hk
    · rw [if_neg hs]
      exact lookup_sendPhase_not_mem cooldown now rest s k hrest

theorem is_active_sendPhase_mono (cooldown now : Int) :
    ∀ (alerts : List SysAlert) (s : AlertState) (k : String),
      is_active s k = true →
      is_active (sendPhase cooldown now s alerts).1 k = true
  | [], _, _, h => h
  | a :: rest, s, k, h => by
    rw [sendPhase_cons]
    by_cases hs : should_alert cooldown now s a.key = true
    · rw [if_pos hs]
      show is_active (sendPhase cooldown now (record_alert now s a.key) rest).1 k = true
      apply is_active_sendPhase_mono cooldown now rest _ k
      by_cases hk : k = a.key
      · subst hk; exact is_active_record_self now s a.key
      · rw [is_active_record_ne now s a.key k hk]; exact h
    · rw [if_neg hs]
      exact is_active_sendPhase_mono cooldown now rest s k h

theorem nodup_keys_sendPhase (cooldown now : Int) :
    ∀ (alerts : List SysAlert) (s : AlertState),
      (keysOf s).Nodup → (keysOf (sendPhase cooldown now s alerts).1).Nodup
  | [], _, h => h
  | a :: rest, s, h => by
    rw [sendPhase_cons]
    by_cases hs : should_alert cooldown now s a.key = true
    · rw [if_pos hs]
      exact nodup_keys_sendPhase cooldown now rest _ (nodup_keys_setRecord s a.key _ h)
    · rw [if_neg hs]
      exact nodup_keys_sendPhase cooldown now rest s h

theorem sendPhase_all_suppressed (cooldown now : Int) :
    ∀ (alerts : List SysAlert) (s : AlertState),
      (∀ a ∈ alerts, should_alert cooldown now s a.key = false) →
      sendPhase cooldown now s alerts = (s, [])
  | [], _, _ => rfl
  | a :: rest, s, h => by
    rw [sendPhase_cons, if_neg (by simp [h a (by simp)])]
    exact sendPhase_all_suppressed cooldown now rest s
      (fun b hb => h b (by simp [hb]))

theorem sendPhase_singleton_pass (cooldown now : Int) (s : AlertState) (a : SysAlert)
    (hs : should_alert cooldown now s a.key = true) :
    sendPhase cooldown now s [a] = (record_alert now s a.key, [a]) := by
  rw [sendPhase_cons, if_pos hs]
  rfl

/-! ## Lemmas about the recovery scans -/

/-- The (state-independent) condition under which the system/network
recovery loop fires for an active key. -/
def sysRecoveryCond (checked : List (String × ℚ)) (currentKeys : List String)
    (k : String) : Bool :=
  isSysNetKey k && (checkedLookup checked k).isSome && !(currentKeys.contains k)

/-- The (state-independent) condition under which the Docker recovery loop
fires for an active key. -/
def dockRecoveryCond (currentKeys : List String) (k : String) : Bool :=
  strStartsWith k "docker_" && !(currentKeys.contains k)

theorem systemRecoveryFold_spec (hostname : String) (checked : List (String × ℚ))
    (currentKeys : List String) :
    ∀ (ks : List String) (s : AlertState) (ns : List Notification),
      ks.foldl (systemRecoveryStep hostname checked currentKeys) (s, ns)
        = ((ks.filter (sysRecoveryCond checked currentKeys)).foldl clear_alert s,
           ns ++ (ks.filter (sysRecoveryCond checked currentKeys)).map
             (fun k => .recovery hostname k (displayName k)
                ((checkedLookup checked k).getD 0)))
  | [], s, ns => by simp
  | k0 :: t, s, ns => by
    rw [List.foldl_cons, List.filter_cons]
    by_cases hsn : isSysNetKey k0 = true
    · rcases hch : checkedLookup checked k0 with _ | v
      · have hstep : systemRecoveryStep hostname checked currentKeys (s, ns) k0 = (s, ns) := by
          simp [systemRecoveryStep, hsn, hch]
        have hcond : sysRecoveryCond checked currentKeys k0 = false := by
          simp [sysRecoveryCond, hch]
        rw [hstep, if_neg (by simp [hcond])]
        exact systemRecoveryFold_spec hostname checked currentKeys t s ns
      · by_cases hcur : currentKeys.contains k0 = true
        · have hmem : k0 ∈ currentKeys := by simpa using hcur
          have hstep : systemRecoveryStep hostname checked currentKeys (s, ns) k0 = (s, ns) := by
            simp [systemRecoveryStep, hsn, hch, hmem]
          have hcond : sysRecoveryCond checked currentKeys k0 = false := by
            simp [sysRecoveryCond, hmem]
          rw [hstep, if_neg (by simp [hcond])]
          exact systemRecoveryFold_spec hostname checked currentKeys t s ns
        · have hmem : k0 ∉ currentKeys := by simpa using hcur
          have hstep : systemRecoveryStep hostname checked currentKeys (s, ns) k0
              = (clear_alert s k0,
                 ns ++ [.recovery hostname k0 (displayName k0) v]) := by
            simp [systemRecoveryStep, hsn, hch, hmem]
          have hcond : sysRecoveryCond checked currentKeys k0 = true := by
            simp [sysRecoveryCond, hsn, hch, hmem]
          rw [hstep, if_pos (by simp [hcond])]
          rw [systemRecoveryFold_spec hostname checked currentKeys t (clear_alert s k0) _]
          simp [hch]
    · have hstep : systemRecoveryStep hostname checked currentKeys (s, ns) k0 = (s, ns) := by
        simp [systemRecoveryStep, hsn]
      have hcond : sysRecoveryCond checked currentKeys k0 = false := by
        simp [sysRecoveryCond, hsn]
      rw [hstep, if_neg (by simp [hcond])]
      exact systemRecoveryFold_spec hostname checked currentKeys t s ns

theorem dockerRecoveryFold_spec (hostname : String) (currentKeys : List String) :
    ∀ (ks : List String) (s : AlertState) (ns : List Notification),
      ks.foldl (dockerRecoveryStep hostname currentKeys) (s, ns)
        = ((ks.filter (dockRecoveryCond currentKeys)).foldl clear_alert s,
           ns ++ (ks.filter (dockRecoveryCond currentKeys)).map
             (fun k => .dockerRecovery hostname k (dockerRecoveryName k) "running"))
  | [], s, ns => by simp
  | k0 :: t, s, ns => by
    rw [List.foldl_cons, List.filter_cons]
    by_cases hc : dockRecoveryCond currentKeys k0 = true
    · have hstep : dockerRecoveryStep hostname currentKeys (s, ns) k0
          = (clear_alert s k0,
             ns ++ [.dockerRecovery hostname k0 (dockerRecoveryName k0) "running"]) := by
        simp only [dockerRecoveryStep, dockRecoveryCond] at hc ⊢
        rw [if_pos hc]
      rw [hstep, if_pos (by simp [hc])]
      rw [dockerRecoveryFold_spec hostname currentKeys t (clear_alert s k0) _]
      simp
    · have hstep : dockerRecoveryStep hostname currentKeys (s, ns) k0 = (s, ns) := by
        simp only [dockerRecoveryStep, dockRecoveryCond] at hc ⊢
        rw [if_neg hc]
      rw [hstep, if_neg (by simp [hc])]
      exact dockerRecoveryFold_spec hostname currentKeys t s ns

/-! ## Counting lemmas -/

theorem recoveryCountFor_append (k : String) (ns1 ns2 : List Notification) :
    recoveryCountFor k (ns1 ++ ns2)
      = recoveryCountFor k ns1 + recoveryCountFor k ns2 := by
  simp [recoveryCountFor, List.filter_append]

theorem alertBatchCountFor_append (k : String) (ns1 ns2 : List Notification) :
    alertBatchCountFor k (ns1 ++ ns2)
      = alertBatchCountFor k ns1 + alertBatchCountFor k ns2 := by
  simp [alertBatchCountFor, List.filter_append]

theorem recoveryCountFor_map_recovery (k hostname : String)
    (f : String → String) (g : String → ℚ) :
    ∀ l : List String,
      recoveryCountFor k (l.map (fun k2 => .recovery hostname k2 (f k2) (g k2)))
        = l.count k
  | [] => rfl
  | k0 :: t => by
    simp only [List.map_cons, recoveryCountFor, List.filter_cons, List.count_cons]
    by_cases hk : k0 == k
    · rw [if_pos (by simpa using hk), if_pos (by simpa using hk)]
      simpa [recoveryCountFor] using
        (recoveryCountFor_map_recovery k hostname f g t).symm ▸ rfl
    · rw [if_neg (by simpa using hk), if_neg (by simpa using hk)]
      simpa [recoveryCountFor] using recoveryCountFor_map_recovery k hostname f g t

theorem alertBatchCountFor_map_recovery (k hostname : String)
    (f : String → String) (g : String → ℚ) (l : List String) :
    alertBatchCountFor k (l.map (fun k2 => .recovery hostname k2 (f k2) (g k2))) = 0 := by
  induction l with
  | nil => rfl
  | cons k0 t ih =>
    simp only [List.map_cons, alertBatchCountFor, List.filter_cons] at ih ⊢
    simp [ih]

theorem recoveryCountFor_map_dockerRecovery (k hostname : String)
    (f : String → String) (l : List String) :
    recoveryCountFor k (l.map (fun k2 => .dockerRecovery hostname k2 (f k2) "running"))
      = 0 := by
  induction l with
  | nil => rfl
  | cons k0 t ih =>
    simp only [List.map_cons, recoveryCountFor, List.filter_cons] at ih ⊢
    simp [ih]

theorem recoveryCountFor_sendNotifs (k hostname : String) (batch : List SysAlert) :
    recoveryCountFor k
        (if batch.isEmpty then ([] : List Notification) else [.alertBatch hostname batch])
      = 0 := by
  by_cases hb : batch.isEmpty
  · simp [hb, recoveryCountFor]
  · simp [hb, recoveryCountFor]

theorem alertBatchCountFor_sendNotifs (k hostname : String) (batch : List SysAlert) :
    alertBatchCountFor k
        (if batch.isEmpty then ([] : List Notification) else [.alertBatch hostname batch])
      = (if batch.any (fun a => a.key == k) then 1 else 0) := by
  by_cases hb : batch.isEmpty
  · have : batch = [] := by simpa using hb
    subst this
    simp [alertBatchCountFor]
  · simp only [hb, Bool.false_eq_true, if_false]
    by_cases ha : batch.any (fun a => a.key == k) = true
    · simp [alertBatchCountFor, List.filter_cons, ha]
    · simp [alertBatchCountFor, List.filter_cons, ha]

/-! ## State-shape lemmas for foldl clear -/

theorem keysOf_foldl_clear :
    ∀ (ks : List String) (s : AlertState), keysOf (ks.foldl clear_alert s) = keysOf s
  | [], _ => rfl
  | k0 :: t, s => by
    rw [List.foldl_cons, keysOf_foldl_clear t, keysOf_clear]

/-! ## Normal forms of the per-cycle processors -/

theorem process_system_false_fst (hostname : String) (cooldown now : Int)
    (s : AlertState) (alerts : List SysAlert) (checked : List (String × ℚ)) :
    (process_system_alerts false hostname cooldown now s alerts checked).1
      = (sendPhase cooldown now s alerts).1 := rfl

theorem process_system_false_snd (hostname : String) (cooldown now : Int)
    (s : AlertState) (alerts : List SysAlert) (checked : List (String × ℚ)) :
    (process_system_alerts false hostname cooldown now s alerts checked).2
      = (if (sendPhase cooldown now s alerts).2.isEmpty then []
         else [.alertBatch hostname (sendPhase cooldown now s alerts).2]) := rfl

theorem process_system_true_fst (hostname : String) (cooldown now : Int)
    (s : AlertState) (alerts : List SysAlert) (checked : List (String × ℚ)) :
    (process_system_alerts true hostname cooldown now s alerts checked).1
      = ((get_active_alerts (sendPhase cooldown now s alerts).1).filter
          (sysRecoveryCond checked (alerts.map SysAlert.key))).foldl clear_alert
          (sendPhase cooldown now s alerts).1 := by
  unfold process_system_alerts
  rw [if_pos rfl, systemRecoveryFold_spec]

theorem process_system_true_snd (hostname : String) (cooldown now : Int)
    (s : AlertState) (alerts : List SysAlert) (checked : List (String × ℚ)) :
    (process_system_alerts true hostname cooldown now s alerts checked).2
      = (if (sendPhase cooldown now s alerts).2.isEmpty then []
         else [.alertBatch hostname (sendPhase cooldown now s alerts).2])
        ++ ((get_active_alerts (sendPhase cooldown now s alerts).1).filter
            (sysRecoveryCond checked (alerts.map SysAlert.key))).map
            (fun k => .recovery hostname k (displayName k)
               ((checkedLookup checked k).getD 0)) := by
  unfold process_system_alerts
  rw [if_pos rfl, systemRecoveryFold_spec]
  simp

theorem lastAlertOf_process_system (b : Bool) (hostname : String) (cooldown now : Int)
    (s : AlertState) (alerts : List SysAlert) (checked : List (String × ℚ)) (k : String) :
    lastAlertOf (process_system_alerts b hostname cooldown now s alerts checked).1 k
      = lastAlertOf (sendPhase cooldown now s alerts).1 k := by
  cases b
  · rw [process_system_false_fst]
  · rw [process_system_true_fst, lastAlertOf_foldl_clear]

theorem alertBatchCountFor_process_system (b : Bool) (hostname : String)
    (cooldown now : Int) (s : AlertState) (alerts : List SysAlert)
    (checked : List (String × ℚ)) (k : String) :
    alertBatchCountFor k (process_system_alerts b hostname cooldown now s alerts checked).2
      = (if (sendPhase cooldown now s alerts).2.any (fun a => a.key == k) then 1 else 0) := by
  cases b
  · rw [process_system_false_snd, alertBatchCountFor_sendNotifs]
  · rw [process_system_true_snd, alertBatchCountFor_append, alertBatchCountFor_sendNotifs,
      alertBatchCountFor_map_recovery k hostname displayName
        (fun k2 => (checkedLookup checked k2).getD 0)]
    simp

/-! ## Claim C3: system/network recovery fires exactly once, iff configured
and healthy-and-checked -/

/-- Claim C3. For a system/network-pool key `k` that is active in the store
(and under a store with unique keys, as every reachable store has): during
`_process_system_alerts`, exactly one recovery notification for `k` is
emitted and `k` leaves the active set *iff* `send_recovery` is on, `k` is in
this cycle's `checked_keys`, and `k` is not among this cycle's breaches.
Otherwise no recovery for `k` is emitted and `k` stays active. -/
theorem system_recovery_iff
    (b : Bool) (hostname : String) (cooldown now : Int) (s : AlertState)
    (alerts : List SysAlert) (checked : List (String × ℚ)) (k : String)
    (hnd : (keysOf s).Nodup) (hact : is_active s k = true)
    (hpre : isSysNetKey k = true) :
    (recoveryCountFor k (process_system_alerts b hostname cooldown now s alerts checked).2 = 1
      ∧ is_active (process_system_alerts b hostname cooldown now s alerts checked).1 k = false)
    ↔ (b = true ∧ (checkedLookup checked k).isSome = true
       ∧ (alerts.map SysAlert.key).contains k = false) := by
  cases b with
  | false =>
    constructor
    · rintro ⟨hc, -⟩
      rw [process_system_false_snd, recoveryCountFor_sendNotifs] at hc
      exact absurd hc (by decide)
    · rintro ⟨hb, -⟩
      exact absurd hb (by decide)
  | true =>
    have hsnd := process_system_true_snd hostname cooldown now s alerts checked
    have hfst := process_system_true_fst hostname cooldown now s alerts checked
    constructor
    · rintro ⟨hc, -⟩
      rw [hsnd, recoveryCountFor_append, recoveryCountFor_sendNotifs,
        recoveryCountFor_map_recovery k hostname displayName
          (fun k2 => (checkedLookup checked k2).getD 0)] at hc
      refine ⟨rfl, ?_, ?_⟩
      · by_contra hsome
        have hsf : (checkedLookup checked k).isSome = false := by
          simpa using hsome
        have hcnt : ((get_active_alerts (sendPhase cooldown now s alerts).1).filter
            (sysRecoveryCond checked (alerts.map SysAlert.key))).count k = 0 :=
          List.count_eq_zero.mpr (fun hm => by
            have h2 := (List.mem_filter.mp hm).2
            simp [sysRecoveryCond, hsf] at h2)
        rw [hcnt] at hc
        exact absurd hc (by decide)
      · by_contra hcont
        have hct : (alerts.map SysAlert.key).contains k = true := by
          simpa using hcont
        have hkm : k ∈ alerts.map SysAlert.key := by simpa using hct
        have hcnt : ((get_active_alerts (sendPhase cooldown now s alerts).1).filter
            (sysRecoveryCond checked (alerts.map SysAlert.key))).count k = 0 :=
          List.count_eq_zero.mpr (fun hm => by
            have h2 := (List.mem_filter.mp hm).2
            simp [sysRecoveryCond, hkm] at h2)
        rw [hcnt] at hc
        exact absurd hc (by decide)
    · rintro ⟨-, hsome, hcon⟩
      have hknm : k ∉ alerts.map SysAlert.key := by simpa using hcon
      have hnotmem : ∀ a ∈ alerts, k ≠ a.key := by
        intro a ha heq
        exact hknm (List.mem_map.mpr ⟨a, ha, heq.symm⟩)
      have hlk : lookupRecord (sendPhase cooldown now s alerts).1 k = lookupRecord s k :=
        lookup_sendPhase_not_mem cooldown now alerts s k hnotmem
      have hact1 : is_active (sendPhase cooldown now s alerts).1 k = true := by
        unfold is_active
        rw [hlk]
        exact hact
      have hmemact : k ∈ get_active_alerts (sendPhase cooldown now s alerts).1 :=
        mem_get_active_of_is_active _ k hact1
      have hnd1 : (keysOf (sendPhase cooldown now s alerts).1).Nodup :=
        nodup_keys_sendPhase cooldown now alerts s hnd
      have hndact : (get_active_alerts (sendPhase cooldown now s alerts).1).Nodup :=
        nodup_get_active _ hnd1
      have hcond : sysRecoveryCond checked (alerts.map SysAlert.key) k = true := by
        simp [sysRecoveryCond, hpre, hsome, hknm]
      have hmemf : k ∈ (get_active_alerts (sendPhase cooldown now s alerts).1).filter
          (sysRecoveryCond checked (alerts.map SysAlert.key)) :=
        List.mem_filter.mpr ⟨hmemact, hcond⟩
      have hndf : ((get_active_alerts (sendPhase cooldown now s alerts).1).filter
          (sysRecoveryCond checked (alerts.map SysAlert.key))).Nodup :=
        hndact.filter _
      constructor
      · rw [hsnd, recoveryCountFor_append, recoveryCountFor_sendNotifs,
          recoveryCountFor_map_recovery k hostname displayName
            (fun k2 => (checkedLookup checked k2).getD 0)]
        simpa using List.count_eq_one_of_mem hndf hmemf
      · have hcont2 : ((get_active_alerts (sendPhase cooldown now s alerts).1).filter
            (sysRecoveryCond checked (alerts.map SysAlert.key))).contains k = true := by
          simpa using hmemf
        rw [hfst, is_active_foldl_clear, hcont2]
        simp

/-- Witness for C3: a store where `system_memory` is active (recorded at
time 0), an empty breach list, the key checked healthy at 45.2%, recovery
enabled: exactly one recovery fires and the key deactivates. -/
theorem system_recovery_iff_witness :
    recoveryCountFor "system_memory"
        (process_system_alerts true "vps1" 300 1000
          [("system_memory", ⟨0, true⟩)] [] [("system_memory", (452 : ℚ)/10)]).2 = 1
    ∧ is_active
        (process_system_alerts true "vps1" 300 1000
          [("system_memory", ⟨0, true⟩)] [] [("system_memory", (452 : ℚ)/10)]).1
        "system_memory" = false := by
  exact (system_recovery_iff true "vps1" 300 1000
      [("system_memory", ⟨0, true⟩)] [] [("system_memory", (452 : ℚ)/10)]
      "system_memory" (by decide) (by decide) (by decide)).mpr
    ⟨rfl, by decide, by decide⟩

/-! ## Claim C4: a persisting breach inside the cooldown window notifies once -/

theorem run_system_cycles_nil (b : Bool) (hostname : String) (cooldown : Int)
    (s : AlertState) : run_system_cycles b hostname cooldown s [] = (s, []) := rfl

theorem run_system_cycles_cons (b : Bool) (hostname : String) (cooldown : Int)
    (s : AlertState) (t : Int) (al : List SysAlert) (ch : List (String × ℚ))
    (rest : List (Int × List SysAlert × List (String × ℚ))) :
    run_system_cycles b hostname cooldown s ((t, al, ch) :: rest)
      = ((run_system_cycles b hostname cooldown
            (process_system_alerts b hostname cooldown t s al ch).1 rest).1,
         (process_system_alerts b hostname cooldown t s al ch).2
           ++ (run_system_cycles b hostname cooldown
               (process_system_alerts b hostname cooldown t s al ch).1 rest).2) := rfl

theorem run_suppressed_cycles (b : Bool) (hostname : String) (cooldown t0 : Int)
    (a : SysAlert) :
    ∀ (rest : List (Int × List (String × ℚ))) (s : AlertState),
      lastAlertOf s a.key = t0 →
      (∀ c ∈ rest, c.1 - t0 < cooldown) →
      alertBatchCountFor a.key
          (run_system_cycles b hostname cooldown s
            (rest.map (fun c => (c.1, [a], c.2)))).2 = 0
  | [], s, _, _ => rfl
  | c :: rest, s, hla, hlt => by
    have hsup : should_alert cooldown c.1 s a.key = false := by
      have h1 : c.1 - t0 < cooldown := hlt c (by simp)
      simp only [should_alert, hla, decide_eq_false_iff_not]
      omega
    have hsp : sendPhase cooldown c.1 s [a] = (s, []) :=
      sendPhase_all_suppressed cooldown c.1 [a] s (by simpa using hsup)
    rw [List.map_cons, run_system_cycles_cons, alertBatchCountFor_append]
    have hcnt : alertBatchCountFor a.key
        (process_system_alerts b hostname cooldown c.1 s [a] c.2).2 = 0 := by
      rw [alertBatchCountFor_process_system, hsp]
      simp
    have hstate : lastAlertOf
        (process_system_alerts b hostname cooldown c.1 s [a] c.2).1 a.key = t0 := by
      rw [lastAlertOf_process_system, hsp]
      exact hla
    rw [hcnt,
      run_suppressed_cycles b hostname cooldown t0 a rest _ hstate
        (fun d hd => hlt d (by simp [hd]))]

/-- Claim C4. If a breach of key `k = a.key` recurs over a run of cycles — a
first cycle at time `t0` where the cooldown gate passes, followed by any
number of cycles all strictly inside the cooldown window after `t0` — then
exactly one batched notification containing `k` is emitted over the whole
run: the first send records `last_alert = t0`, and every later in-window
breach has `should_alert` false and is suppressed without notification. -/
theorem persistent_breach_single_notification
    (b : Bool) (hostname : String) (cooldown t0 : Int) (s : AlertState)
    (a : SysAlert) (ch0 : List (String × ℚ))
    (rest : List (Int × List (String × ℚ)))
    (h0 : should_alert cooldown t0 s a.key = true)
    (hrest : ∀ c ∈ rest, c.1 - t0 < cooldown) :
    alertBatchCountFor a.key
        (run_system_cycles b hostname cooldown s
          ((t0, [a], ch0) :: rest.map (fun c => (c.1, [a], c.2)))).2 = 1 := by
  rw [run_system_cycles_cons, alertBatchCountFor_append]
  have hsp : sendPhase cooldown t0 s [a] = (record_alert t0 s a.key, [a]) :=
    sendPhase_singleton_pass cooldown t0 s a h0
  have hcnt1 : alertBatchCountFor a.key
      (process_system_alerts b hostname cooldown t0 s [a] ch0).2 = 1 := by
    rw [alertBatchCountFor_process_system, hsp]
    simp
  have hstate : lastAlertOf
      (process_system_alerts b hostname cooldown t0 s [a] ch0).1 a.key = t0 := by
    rw [lastAlertOf_process_system, hsp]
    exact lastAlertOf_record_self t0 s a.key
  rw [hcnt1, run_suppressed_cycles b hostname cooldown t0 a rest _ hstate hrest]

/-- Witness for C4: memory at 85% over threshold 80% breaches at t=1000
(fresh store, gate passes), and keeps breaching at t=1010 and t=1020 with a
300-second cooldown: one batched notification in total. -/
theorem persistent_breach_single_notification_witness :
    alertBatchCountFor "system_memory"
        (run_system_cycles true "vps1" 300 []
          ((1000, [⟨"system_memory", "内存使用率", 85, 80⟩],
             [("system_memory", (85 : ℚ))])
           :: [((1010 : Int), [("system_memory", (85 : ℚ))]),
               ((1020 : Int), [("system_memory", (85 : ℚ))])].map
                (fun c => (c.1, [⟨"system_memory", "内存使用率", 85, 80⟩], c.2)))).2
      = 1 := by
  exact persistent_breach_single_notification true "vps1" 300 1000 []
    ⟨"system_memory", "内存使用率", 85, 80⟩ [("system_memory", (85 : ℚ))]
    [((1010 : Int), [("system_memory", (85 : ℚ))]),
     ((1020 : Int), [("system_memory", (85 : ℚ))])]
    (by decide) (by decide)

/-! ## Claim C2: recovery does **not** reset the cooldown -/

/-- Claim C2, counterexample. With cooldown 300: a memory breach at t=1000
is notified and recorded; at t=1010 the metric is healthy, so exactly one
recovery notification fires and the key is cleared; at t=1020 the breach
returns — but `clear_alert` kept `last_alert = 1000` and `should_alert`
consults only `last_alert`, so the re-trigger 20 seconds after the previous
send is suppressed: the third cycle emits **no** notification, refuting
"eligible to re-alert immediately, no cooldown on first re-trigger". -/
theorem recovered_key_still_cooled_counterexample :
    (process_system_alerts true "vps1" 300 1000 []
        [⟨"system_memory", "内存使用率", 85, 80⟩] [("system_memory", (85 : ℚ))]).2
      = [.alertBatch "vps1" [⟨"system_memory", "内存使用率", 85, 80⟩]]
    ∧ (process_system_alerts true "vps1" 300 1010
        (process_system_alerts true "vps1" 300 1000 []
          [⟨"system_memory", "内存使用率", 85, 80⟩] [("system_memory", (85 : ℚ))]).1
        [] [("system_memory", (50 : ℚ))]).2
      = [.recovery "vps1" "system_memory" "内存使用率" 50]
    ∧ is_active
        (process_system_alerts true "vps1" 300 1010
          (process_system_alerts true "vps1" 300 1000 []
            [⟨"system_memory", "内存使用率", 85, 80⟩] [("system_memory", (85 : ℚ))]).1
          [] [("system_memory", (50 : ℚ))]).1 "system_memory" = false
    ∧ (process_system_alerts true "vps1" 300 1020
        (process_system_alerts true "vps1" 300 1010
          (process_system_alerts true "vps1" 300 1000 []
            [⟨"system_memory", "内存使用率", 85, 80⟩] [("system_memory", (85 : ℚ))]).1
          [] [("system_memory", (50 : ℚ))]).1
        [⟨"system_memory", "内存使用率", 85, 80⟩] [("system_memory", (85 : ℚ))]).2
      = [] := by
  decide

/-- Claim C2, amended. `clear_alert` flips only the `active` flag: it
preserves `last_alert`, so `should_alert` is unchanged by a recovery.
Consequently a key that recovered is *not* immediately eligible to
re-alert: after a send at time `t` and a subsequent recovery, a new breach
passes the gate only once `t' - t ≥ cooldown` — the cooldown keeps running
from the last send, and the first re-trigger inside the window is
suppressed. -/
theorem clear_alert_preserves_cooldown (cooldown now t t' : Int)
    (s : AlertState) (k k' : String) :
    lastAlertOf (clear_alert s k') k = lastAlertOf s k
    ∧ should_alert cooldown now (clear_alert s k') k = should_alert cooldown now s k
    ∧ (should_alert cooldown t' (clear_alert (record_alert t s k) k) k = true
        ↔ cooldown ≤ t' - t) := by
  refine ⟨lastAlertOf_clear s k' k, ?_, ?_⟩
  · unfold should_alert
    rw [lastAlertOf_clear s k' k]
  · unfold should_alert
    rw [lastAlertOf_clear, lastAlertOf_record_self]
    simp

/-! ## Threshold evaluators (`collectors/system.py`, `collectors/network.py`) -/

/-- Readings from `SystemCollector.collect_all`: a field is `some` exactly
when that metric is enabled and sampled; the disk field lists the
successfully-resolved paths with their usage percentage (paths raising
`FileNotFoundError`/`PermissionError` are absent from the list). -/
structure SystemData where
  memory : Option ℚ
  swap : Option ℚ
  disk : Option (List (String × ℚ))
  cpu : Option ℚ

/-- The configured `system.*.threshold` values. -/
structure SystemThresholds where
  memory : ℚ
  swap : ℚ
  disk : ℚ
  cpu : ℚ

/-- The `'memory' in data` branch of `SystemCollector.check_thresholds`. -/
def memoryAlerts (th : ℚ) : Option ℚ → List SysAlert
  | some v => if v > th then [⟨"system_memory", "内存使用率", v, th⟩] else []
  | none => []

def memoryChecked : Option ℚ → List (String × ℚ)
  | some v => [("system_memory", v)]
  | none => []

/-- The `'swap' in data` branch. -/
def swapAlerts (th : ℚ) : Option ℚ → List SysAlert
  | some v => if v > th then [⟨"system_swap", "Swap使用率", v, th⟩] else []
  | none => []

def swapChecked : Option ℚ → List (String × ℚ)
  | some v => [("system_swap", v)]
  | none => []

/-- The `'disk' in data` branch: one key `system_disk_<path>` per resolved
path, alert iff its percentage strictly exceeds the disk threshold. -/
def diskAlerts (th : ℚ) : Option (List (String × ℚ)) → List SysAlert
  | some l => (l.filter (fun pv => pv.2 > th)).map
      (fun pv => ⟨"system_disk_" ++ pv.1, "磁盘使用率(" ++ pv.1 ++ ")", pv.2, th⟩)
  | none => []

def diskChecked : Option (List (String × ℚ)) → List (String × ℚ)
  | some l => l.map (fun pv => ("system_disk_" ++ pv.1, pv.2))
  | none => []

/-- The `'cpu' in data` branch. -/
def cpuAlerts (th : ℚ) : Option ℚ → List SysAlert
  | some v => if v > th then [⟨"system_cpu", "CPU使用率", v, th⟩] else []
  | none => []

def cpuChecked : Option ℚ → List (String × ℚ)
  | some v => [("system_cpu", v)]
  | none => []

/-- Model of `SystemCollector.check_thresholds`: alerts and checked keys in source
order (memory, swap, disk paths, cpu). -/
def system_check_thresholds (th : SystemThresholds) (data : SystemData) :
    List SysAlert × List (String × ℚ) :=
  (memoryAlerts th.memory data.memory ++ swapAlerts th.swap data.swap
     ++ diskAlerts th.disk data.disk ++ cpuAlerts th.cpu data.cpu,
   memoryChecked data.memory ++ swapChecked data.swap
     ++ diskChecked data.disk ++ cpuChecked data.cpu)

/-- Readings from `NetworkCollector.collect_all`: traffic is the
`(in_mbps, out_mbps)` pair when enabled; connections is the count when
enabled, with `-1` as the `AccessDenied` sentinel. -/
structure NetworkData where
  traffic : Option (ℚ × ℚ)
  connections : Option Int

structure NetworkThresholds where
  traffic_mbps : ℚ
  connections : Int

/-- The `'traffic' in data` branch of `NetworkCollector.check_thresholds`. -/
def trafficAlerts (th : ℚ) : Option (ℚ × ℚ) → List SysAlert
  | some io =>
      (if io.1 > th then [⟨"network_traffic_in", "入站流量", io.1, th⟩] else [])
        ++ (if io.2 > th then [⟨"network_traffic_out", "出站流量", io.2, th⟩] else [])
  | none => []

def trafficChecked : Option (ℚ × ℚ) → List (String × ℚ)
  | some io => [("network_traffic_in", io.1), ("network_traffic_out", io.2)]
  | none => []

/-- The `'connections' in data and data['connections'] >= 0` branch:
negative (permission-denied sentinel) readings are excluded from alerts
and the checked set alike. -/
def connAlerts (th : Int) : Option Int → List SysAlert
  | some c =>
      if 0 ≤ c then
        (if c > th then [⟨"network_connections", "网络连接数", (c : ℚ), (th : ℚ)⟩] else [])
      else []
  | none => []

def connChecked : Option Int → List (String × ℚ)
  | some c => if 0 ≤ c then [("network_connections", (c : ℚ))] else []
  | none => []

/-- Model of `NetworkCollector.check_thresholds`. -/
def network_check_thresholds (th : NetworkThresholds) (data : NetworkData) :
    List SysAlert × List (String × ℚ) :=
  (trafficAlerts th.traffic_mbps data.traffic ++ connAlerts th.connections data.connections,
   trafficChecked data.traffic ++ connChecked data.connections)

/-! ### Key-disambiguation facts ('system_disk_<p>' never collides with a
fixed key) -/

theorem disk_key_ne_memory (p : String) : "system_disk_" ++ p ≠ "system_memory" := by
  intro h
  have hd : ("system_disk_" ++ p).data = "system_memory".data := congrArg String.data h
  rw [String.data_append "system_disk_" p] at hd
  have h8 : ("system_disk_".data ++ p.data).take 8 = "system_memory".data.take 8 := by
    rw [hd]
  rw [List.take_append_of_le_length (by decide)] at h8
  exact absurd h8 (by decide)

theorem disk_key_ne_swap (p : String) : "system_disk_" ++ p ≠ "system_swap" := by
  intro h
  have hd : ("system_disk_" ++ p).data = "system_swap".data := congrArg String.data h
  rw [String.data_append "system_disk_" p] at hd
  have h8 : ("system_disk_".data ++ p.data).take 8 = "system_swap".data.take 8 := by
    rw [hd]
  rw [List.take_append_of_le_length (by decide)] at h8
  exact absurd h8 (by decide)

theorem disk_key_ne_cpu (p : String) : "system_disk_" ++ p ≠ "system_cpu" := by
  intro h
  have hd : ("system_disk_" ++ p).data = "system_cpu".data := congrArg String.data h
  rw [String.data_append "system_disk_" p] at hd
  have h8 : ("system_disk_".data ++ p.data).take 8 = "system_cpu".data.take 8 := by
    rw [hd]
  rw [List.take_append_of_le_length (by decide)] at h8
  exact absurd h8 (by decide)

theorem disk_key_inj (p q : String)
    (h : ("system_disk_" : String) ++ p = "system_disk_" ++ q) : p = q := by
  have hd := congrArg String.data h
  rw [String.data_append "system_disk_" p, String.data_append "system_disk_" q] at hd
  exact String.ext (List.append_cancel_left hd)

theorem mem_memoryAlerts (th : ℚ) (m : Option ℚ) (a : SysAlert) :
    a ∈ memoryAlerts th m
      ↔ ∃ v, m = some v ∧ v > th ∧ a = ⟨"system_memory", "内存使用率", v, th⟩ := by
  cases m with
  | none => simp [memoryAlerts]
  | some v => by_cases hv : v > th <;> simp [memoryAlerts, hv]

theorem mem_swapAlerts (th : ℚ) (m : Option ℚ) (a : SysAlert) :
    a ∈ swapAlerts th m
      ↔ ∃ v, m = some v ∧ v > th ∧ a = ⟨"system_swap", "Swap使用率", v, th⟩ := by
  cases m with
  | none => simp [swapAlerts]
  | some v => by_cases hv : v > th <;> simp [swapAlerts, hv]

theorem mem_cpuAlerts (th : ℚ) (m : Option ℚ) (a : SysAlert) :
    a ∈ cpuAlerts th m
      ↔ ∃ v, m = some v ∧ v > th ∧ a = ⟨"system_cpu", "CPU使用率", v, th⟩ := by
  cases m with
  | none => simp [cpuAlerts]
  | some v => by_cases hv : v > th <;> simp [cpuAlerts, hv]

theorem mem_diskAlerts (th : ℚ) (dOpt : Option (List (String × ℚ))) (a : SysAlert) :
    a ∈ diskAlerts th dOpt
      ↔ ∃ l pv, dOpt = some l ∧ pv ∈ l ∧ pv.2 > th
          ∧ a = ⟨"system_disk_" ++ pv.1, "磁盘使用率(" ++ pv.1 ++ ")", pv.2, th⟩ := by
  cases dOpt with
  | none => simp [diskAlerts]
  | some l =>
    simp only [diskAlerts, List.mem_map, List.mem_filter, Option.some.injEq]
    constructor
    · rintro ⟨pv, ⟨hm, hgt⟩, rfl⟩
      exact ⟨l, pv, rfl, hm, by simpa using hgt, rfl⟩
    · rintro ⟨l2, pv, hl, hm, hgt, rfl⟩
      cases hl
      exact ⟨pv, ⟨hm, by simpa using hgt⟩, rfl⟩

theorem mem_trafficAlerts (th : ℚ) (m : Option (ℚ × ℚ)) (a : SysAlert) :
    a ∈ trafficAlerts th m
      ↔ (∃ io, m = some io ∧ io.1 > th ∧ a = ⟨"network_traffic_in", "入站流量", io.1, th⟩)
        ∨ (∃ io, m = some io ∧ io.2 > th ∧ a = ⟨"network_traffic_out", "出站流量", io.2, th⟩) := by
  cases m with
  | none => simp [trafficAlerts]
  | some io =>
    by_cases h1 : io.1 > th <;> by_cases h2 : io.2 > th <;>
      simp [trafficAlerts, h1, h2]

theorem mem_connAlerts (th : Int) (m : Option Int) (a : SysAlert) :
    a ∈ connAlerts th m
      ↔ ∃ c, m = some c ∧ 0 ≤ c ∧ c > th
          ∧ a = ⟨"network_connections", "网络连接数", (c : ℚ), (th : ℚ)⟩ := by
  cases m with
  | none => simp [connAlerts]
  | some c =>
    by_cases h0 : (0 : Int) ≤ c
    · by_cases hc : c > th <;> simp [connAlerts, h0, hc]
    · simp [connAlerts, h0]

theorem key_mem_system_alerts (th : SystemThresholds) (d : SystemData) (K : String) :
    (∃ a ∈ (system_check_thresholds th d).1, a.key = K)
      ↔ ((∃ v, d.memory = some v ∧ v > th.memory ∧ K = "system_memory")
        ∨ (∃ v, d.swap = some v ∧ v > th.swap ∧ K = "system_swap")
        ∨ (∃ l pv, d.disk = some l ∧ pv ∈ l ∧ pv.2 > th.disk
            ∧ K = "system_disk_" ++ pv.1)
        ∨ (∃ v, d.cpu = some v ∧ v > th.cpu ∧ K = "system_cpu")) := by
  constructor
  · rintro ⟨a, ha, rfl⟩
    simp only [system_check_thresholds, List.mem_append] at ha
    rcases ha with ((h | h) | h) | h
    · rcases (mem_memoryAlerts th.memory d.memory a).mp h with ⟨v, h1, h2, rfl⟩
      exact Or.inl ⟨v, h1, h2, rfl⟩
    · rcases (mem_swapAlerts th.swap d.swap a).mp h with ⟨v, h1, h2, rfl⟩
      exact Or.inr (Or.inl ⟨v, h1, h2, rfl⟩)
    · rcases (mem_diskAlerts th.disk d.disk a).mp h with ⟨l, pv, h1, h2, h3, rfl⟩
      exact Or.inr (Or.inr (Or.inl ⟨l, pv, h1, h2, h3, rfl⟩))
    · rcases (mem_cpuAlerts th.cpu d.cpu a).mp h with ⟨v, h1, h2, rfl⟩
      exact Or.inr (Or.inr (Or.inr ⟨v, h1, h2, rfl⟩))
  · rintro (⟨v, h1, h2, rfl⟩ | ⟨v, h1, h2, rfl⟩ | ⟨l, pv, h1, h2, h3, rfl⟩ | ⟨v, h1, h2, rfl⟩)
    · refine ⟨⟨"system_memory", "内存使用率", v, th.memory⟩, ?_, rfl⟩
      simp only [system_check_thresholds, List.mem_append]
      exact Or.inl (Or.inl (Or.inl ((mem_memoryAlerts _ _ _).mpr ⟨v, h1, h2, rfl⟩)))
    · refine ⟨⟨"system_swap", "Swap使用率", v, th.swap⟩, ?_, rfl⟩
      simp only [system_check_thresholds, List.mem_append]
      exact Or.inl (Or.inl (Or.inr ((mem_swapAlerts _ _ _).mpr ⟨v, h1, h2, rfl⟩)))
    · refine ⟨⟨"system_disk_" ++ pv.1, "磁盘使用率(" ++ pv.1 ++ ")", pv.2, th.disk⟩, ?_, rfl⟩
      simp only [system_check_thresholds, List.mem_append]
      exact Or.inl (Or.inr ((mem_diskAlerts _ _ _).mpr ⟨l, pv, h1, h2, h3, rfl⟩))
    · refine ⟨⟨"system_cpu", "CPU使用率", v, th.cpu⟩, ?_, rfl⟩
      simp only [system_check_thresholds, List.mem_append]
      exact Or.inr ((mem_cpuAlerts _ _ _).mpr ⟨v, h1, h2, rfl⟩)

theorem key_mem_network_alerts (th : NetworkThresholds) (d : NetworkData) (K : String) :
    (∃ a ∈ (network_check_thresholds th d).1, a.key = K)
      ↔ ((∃ io, d.traffic = some io ∧ io.1 > th.traffic_mbps ∧ K = "network_traffic_in")
        ∨ (∃ io, d.traffic = some io ∧ io.2 > th.traffic_mbps ∧ K = "network_traffic_out")
        ∨ (∃ c, d.connections = some c ∧ 0 ≤ c ∧ c > th.connections
            ∧ K = "network_connections")) := by
  constructor
  · rintro ⟨a, ha, rfl⟩
    simp only [network_check_thresholds, List.mem_append] at ha
    rcases ha with h | h
    · rcases (mem_trafficAlerts th.traffic_mbps d.traffic a).mp h with
        ⟨io, h1, h2, rfl⟩ | ⟨io, h1, h2, rfl⟩
      · exact Or.inl ⟨io, h1, h2, rfl⟩
      · exact Or.inr (Or.inl ⟨io, h1, h2, rfl⟩)
    · rcases (mem_connAlerts th.connections d.connections a).mp h with ⟨c, h1, h2, h3, rfl⟩
      exact Or.inr (Or.inr ⟨c, h1, h2, h3, rfl⟩)
  · rintro (⟨io, h1, h2, rfl⟩ | ⟨io, h1, h2, rfl⟩ | ⟨c, h1, h2, h3, rfl⟩)
    · refine ⟨⟨"network_traffic_in", "入站流量", io.1, th.traffic_mbps⟩, ?_, rfl⟩
      simp only [network_check_thresholds, List.mem_append]
      exact Or.inl ((mem_trafficAlerts _ _ _).mpr (Or.inl ⟨io, h1, h2, rfl⟩))
    · refine ⟨⟨"network_traffic_out", "出站流量", io.2, th.traffic_mbps⟩, ?_, rfl⟩
      simp only [network_check_thresholds, List.mem_append]
      exact Or.inl ((mem_trafficAlerts _ _ _).mpr (Or.inr ⟨io, h1, h2, rfl⟩))
    · refine ⟨⟨"network_connections", "网络连接数", (c : ℚ), (th.connections : ℚ)⟩, ?_, rfl⟩
      simp only [network_check_thresholds, List.mem_append]
      exact Or.inr ((mem_connAlerts _ _ _).mpr ⟨c, h1, h2, h3, rfl⟩)

/-- Claim C5. The threshold evaluators breach strictly: a key appears among
the emitted alerts iff its metric is enabled (present in the collected
data) and its reading is strictly greater than the configured threshold —
a reading equal to the threshold never alerts. Negative connection counts
(the permission-denied sentinel) are excluded. Every emitted alert carries
a value strictly above its threshold. -/
theorem threshold_strict_breach (th : SystemThresholds) (d : SystemData)
    (nt : NetworkThresholds) (nd : NetworkData) :
    ((∃ a ∈ (system_check_thresholds th d).1, a.key = "system_memory")
       ↔ ∃ v, d.memory = some v ∧ v > th.memory)
    ∧ ((∃ a ∈ (system_check_thresholds th d).1, a.key = "system_swap")
       ↔ ∃ v, d.swap = some v ∧ v > th.swap)
    ∧ ((∃ a ∈ (system_check_thresholds th d).1, a.key = "system_cpu")
       ↔ ∃ v, d.cpu = some v ∧ v > th.cpu)
    ∧ (∀ p : String,
        (∃ a ∈ (system_check_thresholds th d).1, a.key = "system_disk_" ++ p)
       ↔ ∃ l v, d.disk = some l ∧ (p, v) ∈ l ∧ v > th.disk)
    ∧ ((∃ a ∈ (network_check_thresholds nt nd).1, a.key = "network_traffic_in")
       ↔ ∃ io, nd.traffic = some io ∧ io.1 > nt.traffic_mbps)
    ∧ ((∃ a ∈ (network_check_thresholds nt nd).1, a.key = "network_traffic_out")
       ↔ ∃ io, nd.traffic = some io ∧ io.2 > nt.traffic_mbps)
    ∧ ((∃ a ∈ (network_check_thresholds nt nd).1, a.key = "network_connections")
       ↔ ∃ c, nd.connections = some c ∧ 0 ≤ c ∧ c > nt.connections)
    ∧ (∀ a ∈ (system_check_thresholds th d).1, a.value > a.threshold)
    ∧ (∀ a ∈ (network_check_thresholds nt nd).1, a.value > a.threshold) := by
  refine ⟨?_, ?_, ?_, ?_, ?_, ?_, ?_, ?_, ?_⟩
  · rw [key_mem_system_alerts]
    constructor
    · rintro (⟨v, h1, h2, -⟩ | ⟨v, -, -, h⟩ | ⟨l, pv, -, -, -, h⟩ | ⟨v, -, -, h⟩)
      · exact ⟨v, h1, h2⟩
      · exact absurd h (by decide)
      · exact absurd h.symm (disk_key_ne_memory pv.1)
      · exact absurd h (by decide)
    · rintro ⟨v, h1, h2⟩
      exact Or.inl ⟨v, h1, h2, rfl⟩
  · rw [key_mem_system_alerts]
    constructor
    · rintro (⟨v, -, -, h⟩ | ⟨v, h1, h2, -⟩ | ⟨l, pv, -, -, -, h⟩ | ⟨v, -, -, h⟩)
      · exact absurd h (by decide)
      · exact ⟨v, h1, h2⟩
      · exact absurd h.symm (disk_key_ne_swap pv.1)
      · exact absurd h (by decide)
    · rintro ⟨v, h1, h2⟩
      exact Or.inr (Or.inl ⟨v, h1, h2, rfl⟩)
  · rw [key_mem_system_alerts]
    constructor
    · rintro (⟨v, -, -, h⟩ | ⟨v, -, -, h⟩ | ⟨l, pv, -, -, -, h⟩ | ⟨v, h1, h2, -⟩)
      · exact absurd h (by decide)
      · exact absurd h (by decide)
      · exact absurd h.symm (disk_key_ne_cpu pv.1)
      · exact ⟨v, h1, h2⟩
    · rintro ⟨v, h1, h2⟩
      exact Or.inr (Or.inr (Or.inr ⟨v, h1, h2, rfl⟩))
  · intro p
    rw [key_mem_system_alerts]
    constructor
    · rintro (⟨v, -, -, h⟩ | ⟨v, -, -, h⟩ | ⟨l, pv, h1, h2, h3, h⟩ | ⟨v, -, -, h⟩)
      · exact absurd h (disk_key_ne_memory p)
      · exact absurd h (disk_key_ne_swap p)
      · obtain ⟨pv1, pv2⟩ := pv
        have hp : p = pv1 := disk_key_inj p pv1 h
        subst hp
        exact ⟨l, pv2, h1, h2, h3⟩
      · exact absurd h (disk_key_ne_cpu p)
    · rintro ⟨l, v, h1, h2, h3⟩
      exact Or.inr (Or.inr (Or.inl ⟨l, (p, v), h1, h2, h3, rfl⟩))
  · rw [key_mem_network_alerts]
    constructor
    · rintro (⟨io, h1, h2, -⟩ | ⟨io, -, -, h⟩ | ⟨c, -, -, -, h⟩)
      · exact ⟨io, h1, h2⟩
      · exact absurd h (by decide)
      · exact absurd h (by decide)
    · rintro ⟨io, h1, h2⟩
      exact Or.inl ⟨io, h1, h2, rfl⟩
  · rw [key_mem_network_alerts]
    constructor
    · rintro (⟨io, -, -, h⟩ | ⟨io, h1, h2, -⟩ | ⟨c, -, -, -, h⟩)
      · exact absurd h (by decide)
      · exact ⟨io, h1, h2⟩
      · exact absurd h (by decide)
    · rintro ⟨io, h1, h2⟩
      exact Or.inr (Or.inl ⟨io, h1, h2, rfl⟩)
  · rw [key_mem_network_alerts]
    constructor
    · rintro (⟨io, -, -, h⟩ | ⟨io, -, -, h⟩ | ⟨c, h1, h2, h3, -⟩)
      · exact absurd h (by decide)
      · exact absurd h (by decide)
      · exact ⟨c, h1, h2, h3⟩
    · rintro ⟨c, h1, h2, h3⟩
      exact Or.inr (Or.inr ⟨c, h1, h2, h3, rfl⟩)
  · intro a ha
    simp only [system_check_thresholds, List.mem_append] at ha
    rcases ha with ((h | h) | h) | h
    · rcases (mem_memoryAlerts _ _ _).mp h with ⟨v, -, h2, rfl⟩
      simpa using h2
    · rcases (mem_swapAlerts _ _ _).mp h with ⟨v, -, h2, rfl⟩
      simpa using h2
    · rcases (mem_diskAlerts _ _ _).mp h with ⟨l, pv, -, -, h3, rfl⟩
      simpa using h3
    · rcases (mem_cpuAlerts _ _ _).mp h with ⟨v, -, h2, rfl⟩
      simpa using h2
  · intro a ha
    simp only [network_check_thresholds, List.mem_append] at ha
    rcases ha with h | h
    · rcases (mem_trafficAlerts _ _ _).mp h with ⟨io, -, h2, rfl⟩ | ⟨io, -, h2, rfl⟩
      · simpa using h2
      · simpa using h2
    · rcases (mem_connAlerts _ _ _).mp h with ⟨c, -, -, h3, rfl⟩
      show (c : ℚ) > (nt.connections : ℚ)
      exact_mod_cast h3

/-- Witness for C5: memory 85% over threshold 80% breaches; swap exactly at
its 80% threshold does not. -/
theorem threshold_strict_breach_witness :
    (∃ a ∈ (system_check_thresholds ⟨80, 80, 80, 80⟩
        ⟨some 85, some 80, some [("/", (50 : ℚ))], none⟩).1, a.key = "system_memory")
    ∧ ¬ (∃ a ∈ (system_check_thresholds ⟨80, 80, 80, 80⟩
        ⟨some 85, some 80, some [("/", (50 : ℚ))], none⟩).1, a.key = "system_swap") := by
  have h := threshold_strict_breach ⟨80, 80, 80, 80⟩
    ⟨some 85, some 80, some [("/", (50 : ℚ))], none⟩ ⟨100, 1000⟩ ⟨none, none⟩
  refine ⟨h.1.mpr ⟨85, rfl, by decide⟩, fun hc => ?_⟩
  rcases h.2.1.mp hc with ⟨v, hv, hgt⟩
  have hv80 : v = 80 := by simpa using hv.symm
  subst hv80
  exact absurd hgt (by decide)

/-! ## Docker collector (`collectors/docker.py`) and claim C10 -/

/-- One entry of the `docker.containers` configuration list. -/
structure ContainerCfg where
  name : String
  check_health : Bool
deriving DecidableEq, Repr

/-- The result of `DockerCollector.get_container_status` when it returns a
dict: container name, `container.status`, and the optional health string. -/
structure ContainerStatus where
  name : String
  status : String
  health : Option String
deriving DecidableEq, Repr

/-- Model of `DockerCollector.check_containers`: when the client is unavailable
(not initialized or the daemon unreachable at startup), return `[]` without
checking anything; otherwise evaluate each configured container via the
status oracle (`None` models a status-fetch error, skipped), alerting on
`status != 'running'` and — when `check_health` and the health string is
truthy — on health `!= 'healthy'`. -/
def check_containers (available : Bool) (containers : List ContainerCfg)
    (getStatus : String → Option ContainerStatus) : List DockerAlert :=
  if !available then []
  else
    containers.foldl
      (fun acc c =>
        match getStatus c.name with
        | none => acc
        | some st =>
          let acc1 :=
            if st.status ≠ "running" then
              acc ++ [⟨"docker_" ++ c.name ++ "_status", c.name, "status",
                st.status, "running"⟩]
            else acc
          if c.check_health then
            match st.health with
            | some h =>
              if h ≠ "" ∧ h ≠ "healthy" then
                acc1 ++ [⟨"docker_" ++ c.name ++ "_health", c.name, "health",
                  h, "healthy"⟩]
              else acc1
            | none => acc1
          else acc1)
      []

theorem dockRecoveryCond_nil (k : String) :
    dockRecoveryCond [] k = strStartsWith k "docker_" := by
  simp [dockRecoveryCond]

theorem process_docker_true_nil_fst (hostname : String) (cooldown now : Int)
    (s : AlertState) :
    (process_docker_alerts true hostname cooldown now s []).1
      = ((get_active_alerts s).filter (dockRecoveryCond [])).foldl clear_alert s := by
  simp only [process_docker_alerts, List.map_nil, List.foldl_nil, reduceIte]
  rw [dockerRecoveryFold_spec]

theorem process_docker_true_nil_snd (hostname : String) (cooldown now : Int)
    (s : AlertState) :
    (process_docker_alerts true hostname cooldown now s []).2
      = ((get_active_alerts s).filter (dockRecoveryCond [])).map
          (fun k => .dockerRecovery hostname k (dockerRecoveryName k) "running") := by
  simp only [process_docker_alerts, List.map_nil, List.foldl_nil, reduceIte]
  rw [dockerRecoveryFold_spec]
  simp

/-- Claim C10. When the Docker client is unavailable, `check_containers`
returns the empty alert list without evaluating any container; feeding that
empty list to `_process_docker_alerts` with `send_recovery` on then emits a
recovery notification claiming status `running` for **every** active
`docker_`-prefixed key and clears every one of them — spurious recoveries
for containers nobody checked this cycle. -/
theorem docker_unavailable_spurious_recovery
    (hostname : String) (cooldown now : Int) (s : AlertState)
    (containers : List ContainerCfg) (getStatus : String → Option ContainerStatus)
    (k : String) (hk : strStartsWith k "docker_" = true) :
    check_containers false containers getStatus = []
    ∧ (process_docker_alerts true hostname cooldown now s []).2
        = ((get_active_alerts s).filter (fun k2 => strStartsWith k2 "docker_")).map
            (fun k2 => .dockerRecovery hostname k2 (dockerRecoveryName k2) "running")
    ∧ is_active (process_docker_alerts true hostname cooldown now s []).1 k = false := by
  have hfil : (get_active_alerts s).filter (dockRecoveryCond [])
      = (get_active_alerts s).filter (fun k2 => strStartsWith k2 "docker_") :=
    List.filter_congr (fun x _ => dockRecoveryCond_nil x)
  refine ⟨rfl, ?_, ?_⟩
  · rw [process_docker_true_nil_snd, hfil]
  · rw [process_docker_true_nil_fst, is_active_foldl_clear]
    by_cases ha : is_active s k = true
    · have hm : k ∈ (get_active_alerts s).filter (dockRecoveryCond []) :=
        List.mem_filter.mpr ⟨mem_get_active_of_is_active s k ha,
          by rw [dockRecoveryCond_nil]; exact hk⟩
      have hcont : ((get_active_alerts s).filter (dockRecoveryCond [])).contains k
          = true := by simpa using hm
      rw [hcont]
      simp
    · have ha' : is_active s k = false := by simpa using ha
      rw [ha']
      simp

/-- Witness for C10: an active key `docker_web_status`, the collector made
unavailable, empty breach list: a recovery notification reporting `running`
for container `web` fires and the key deactivates, although nothing was
checked. -/
theorem docker_unavailable_spurious_recovery_witness :
    check_containers false [⟨"web", false⟩] (fun _ => none) = []
    ∧ (process_docker_alerts true "vps1" 300 1000
        [("docker_web_status", ⟨5, true⟩)] []).2
      = [.dockerRecovery "vps1" "docker_web_status" "web" "running"]
    ∧ is_active (process_docker_alerts true "vps1" 300 1000
        [("docker_web_status", ⟨5, true⟩)] []).1 "docker_web_status" = false := by
  have h := docker_unavailable_spurious_recovery "vps1" 300 1000
    [("docker_web_status", ⟨5, true⟩)] [⟨"web", false⟩] (fun _ => none)
    "docker_web_status" (by decide)
  refine ⟨h.1, ?_, h.2.2⟩
  rw [h.2.1]
  decide

/-! ## Claim C6: decoding a container name from a Docker alert key -/

/-- Does `docker_` occur anywhere in the character list? (The scan
`str.replace` performs.) -/
def hasDockerOcc : List Char → Bool
  | [] => false
  | c :: cs => List.isPrefixOf "docker_".data (c :: cs) || hasDockerOcc cs

/-- The decoding rule as the specification states it: strip the `docker_`
*prefix* (once, if present), then drop the trailing `_status`/`_health`
suffix segment. Stated from the spec's words, for comparison with the
source's `dockerRecoveryName`. -/
def specDockerName (key : String) : String :=
  let l := key.data
  let r := if List.isPrefixOf "docker_".data l then l.drop 7 else l
  let r2 :=
    if List.isSuffixOf "_status".data r then r.take (r.length - 7)
    else if List.isSuffixOf "_health".data r then r.take (r.length - 7)
    else r
  ⟨r2⟩

theorem noOcc_dropDockerFuel :
    ∀ (n : Nat) (l : List Char), l.length ≤ n →
      hasDockerOcc l = false → dropDockerFuel n l = l
  | 0, [], _, _ => rfl
  | _ + 1, [], _, _ => rfl
  | 0, c :: cs, h, _ => by simp at h
  | n + 1, c :: cs, h, hocc => by
    have hsplit := Bool.or_eq_false_iff.mp (by simpa [hasDockerOcc] using hocc)
    show (if List.isPrefixOf "docker_".data (c :: cs)
        then dropDockerFuel n (cs.drop 6) else c :: dropDockerFuel n cs) = c :: cs
    rw [hsplit.1]
    simp only [Bool.false_eq_true, if_false]
    rw [noOcc_dropDockerFuel n cs (by simpa using h) hsplit.2]

theorem dropDockerOcc_prefix (xs : List Char)
    (hocc : hasDockerOcc xs = false) :
    dropDockerOcc ("docker_".data ++ xs) = xs := by
  have hpre : List.isPrefixOf "docker_".data ('d':: 'o':: 'c':: 'k':: 'e':: 'r':: '_'::xs)
      = true := List.isPrefixOf_iff_prefix.mpr (List.prefix_append _ xs)
  show dropDockerFuel ("docker_".data ++ xs).length ("docker_".data ++ xs) = xs
  rw [show ("docker_".data ++ xs) = 'd':: 'o':: 'c':: 'k':: 'e':: 'r':: '_'::xs from rfl,
    show ('d':: 'o':: 'c':: 'k':: 'e':: 'r':: '_'::xs).length = xs.length + 7 from rfl]
  show (if List.isPrefixOf "docker_".data ('d':: 'o':: 'c':: 'k':: 'e':: 'r':: '_'::xs)
      then dropDockerFuel (xs.length + 6) (('o':: 'c':: 'k':: 'e':: 'r':: '_'::xs).drop 6)
      else 'd' :: dropDockerFuel (xs.length + 6) ('o':: 'c':: 'k':: 'e':: 'r':: '_'::xs)) = xs
  rw [hpre]
  simp only [reduceIte]
  rw [show ('o':: 'c':: 'k':: 'e':: 'r':: '_'::xs).drop 6 = xs from rfl]
  exact noOcc_dropDockerFuel (xs.length + 6) xs (by omega) hocc

theorem rsplitHead_append_status (xs : List Char) :
    rsplitHead (xs ++ "_status".data) = xs := by
  have hmem : '_' ∈ xs ++ "_status".data :=
    List.mem_append.mpr (Or.inr (by decide))
  have hc : (xs ++ "_status".data).contains '_' = true :=
    List.elem_eq_true_of_mem hmem
  unfold rsplitHead
  rw [if_pos hc, List.reverse_append]
  show xs.reverse.reverse = xs
  exact List.reverse_reverse xs

theorem rsplitHead_append_health (xs : List Char) :
    rsplitHead (xs ++ "_health".data) = xs := by
  have hmem : '_' ∈ xs ++ "_health".data :=
    List.mem_append.mpr (Or.inr (by decide))
  have hc : (xs ++ "_health".data).contains '_' = true :=
    List.elem_eq_true_of_mem hmem
  unfold rsplitHead
  rw [if_pos hc, List.reverse_append]
  show xs.reverse.reverse = xs
  exact List.reverse_reverse xs

/-- Claim C6, counterexample. The source decodes with
`key.replace('docker_', '')`, which removes **every** occurrence of
`docker_`, not only the prefix. For a container legitimately named
`mydocker_app`, the recovery key `docker_mydocker_app_status` decodes to
`myapp`, while the claimed rule (strip prefix, drop suffix segment) yields
`mydocker_app`; the recovery notification emitted by
`_process_docker_alerts` names container `myapp`. -/
theorem docker_name_decode_counterexample :
    dockerRecoveryName "docker_mydocker_app_status" = "myapp"
    ∧ specDockerName "docker_mydocker_app_status" = "mydocker_app"
    ∧ dockerRecoveryName "docker_mydocker_app_status"
        ≠ specDockerName "docker_mydocker_app_status"
    ∧ (process_docker_alerts true "vps1" 300 1000
        [("docker_mydocker_app_status", ⟨0, true⟩)] []).2
      = [.dockerRecovery "vps1" "docker_mydocker_app_status" "myapp" "running"] := by
  refine ⟨by decide, by decide, by decide, by decide⟩

/-- Claim C6, amended. The container name in a Docker recovery notification
is obtained by deleting every occurrence of `docker_` from the key and then
dropping the final `_`-separated segment. When the part after the `docker_`
prefix contains no further `docker_` substring — in particular for every
container name that does not itself contain `docker_` — this coincides
with the claimed rule (strip the prefix, drop the `_status`/`_health`
segment): `docker_<name>_status` decodes to `<name>`, and
`docker_web_status` decodes to `web`, not `web_status` or `docker_web`. -/
theorem dockerRecoveryName_strip (name : String) :
    (hasDockerOcc (name.data ++ "_status".data) = false →
      dockerRecoveryName ("docker_" ++ name ++ "_status") = name)
    ∧ (hasDockerOcc (name.data ++ "_health".data) = false →
      dockerRecoveryName ("docker_" ++ name ++ "_health") = name)
    ∧ dockerRecoveryName "docker_web_status" = "web" := by
  refine ⟨?_, ?_, by decide⟩
  · intro hocc
    unfold dockerRecoveryName
    have hdata : ("docker_" ++ name ++ "_status").data
        = "docker_".data ++ (name.data ++ "_status".data) := by
      rw [String.data_append ("docker_" ++ name) "_status",
        String.data_append "docker_" name, List.append_assoc]
    rw [hdata, dropDockerOcc_prefix _ hocc, rsplitHead_append_status]
  · intro hocc
    unfold dockerRecoveryName
    have hdata : ("docker_" ++ name ++ "_health").data
        = "docker_".data ++ (name.data ++ "_health".data) := by
      rw [String.data_append ("docker_" ++ name) "_health",
        String.data_append "docker_" name, List.append_assoc]
    rw [hdata, dropDockerOcc_prefix _ hocc, rsplitHead_append_health]

/-- Witness for the amended C6 at concrete container names `web` (status
key) and `db` (health key). -/
theorem dockerRecoveryName_strip_witness :
    dockerRecoveryName "docker_web_status" = "web"
    ∧ dockerRecoveryName "docker_db_health" = "db" := by
  exact ⟨(dockerRecoveryName_strip "web").1 (by decide),
    (dockerRecoveryName_strip "db").2.1 (by decide)⟩

/-! ## Scheduled-report initialization (`config.py` / `scheduler.py`),
claim C7 -/

/-- The `scheduled_report` section of the configuration. -/
structure SchedReportCfg where
  enabled : Bool
  cron : String
deriving DecidableEq, Repr

/-- Model of `ScheduledReporter` state after `_init_schedule`. -/
structure SchedulerState where
  enabled : Bool
  next_run : Option Int
deriving DecidableEq, Repr

/-- Model of `ConfigManager._validate`, restricted to the scheduled-report check:
when croniter is importable, the section enabled and the cron string
non-empty, a `croniter(cron_expr)` construction failure
(`CroniterBadCronError` is a `ValueError`) is re-raised as `ValueError` —
config loading, and with it monitor startup, fails. The external croniter
parser is abstracted as an oracle `getNext` giving the next matching
instant, `none` on a parse error. -/
def validate_scheduled_report (croniterAvailable : Bool)
    (getNext : String → Option Int) (cfg : SchedReportCfg) :
    Except String Unit :=
  if croniterAvailable && cfg.enabled && cfg.cron ≠ "" && (getNext cfg.cron).isNone then
    .error ("invalid cron: " ++ cfg.cron)
  else .ok ()

/-- Model of `ScheduledReporter.__init__` / `_init_schedule`: a falsy cron config is
replaced by the default `0 9 * * *`; reporting is disabled when the section
is off, when croniter is missing (warning), or when computing the next run
raises (error logged, `enabled = False`). -/
def init_schedule (croniterAvailable : Bool) (getNext : String → Option Int)
    (cfg : SchedReportCfg) : SchedulerState :=
  let expr := if cfg.cron = "" then "0 9 * * *" else cfg.cron
  if !cfg.enabled then ⟨false, none⟩
  else if !croniterAvailable then ⟨false, none⟩
  else
    match getNext expr with
    | some t => ⟨true, some t⟩
    | none => ⟨false, none⟩

/-- Model of `VPSMonitor._init_components` startup order: `ConfigManager` (which
runs `_validate` and may raise) is constructed before `ScheduledReporter`;
an exception from validation propagates and the process never reaches the
scheduler's own disable-and-log path. -/
def monitor_init_scheduler (croniterAvailable : Bool)
    (getNext : String → Option Int) (cfg : SchedReportCfg) :
    Except String SchedulerState :=
  match validate_scheduled_report croniterAvailable getNext cfg with
  | .error e => .error e
  | .ok _ => .ok (init_schedule croniterAvailable getNext cfg)

/-- Claim C7, counterexample. With croniter available, scheduled reporting
enabled and an unparseable cron expression, initialization does **not**
disable reporting and continue: `ConfigManager._validate` raises
`ValueError` and startup is fatal. -/
theorem invalid_cron_fatal_counterexample :
    monitor_init_scheduler true (fun _ => none) ⟨true, "not a cron"⟩
      = .error ("invalid cron: " ++ "not a cron")
    ∧ (monitor_init_scheduler true (fun _ => none) ⟨true, "not a cron"⟩).isOk = false := by
  exact ⟨rfl, rfl⟩

/-- Claim C7, amended. The disable-and-log path exists only for a *missing
croniter library*: then validation passes and `_init_schedule` turns
reporting off without failing startup. When croniter is available and the
section enabled with a non-empty cron string, a parse failure is instead
fatal at initialization: config validation returns the error and no
scheduler state is ever constructed. -/
theorem invalid_cron_startup_behavior (getNext : String → Option Int)
    (cfg : SchedReportCfg) :
    (cfg.enabled = true →
      monitor_init_scheduler false getNext cfg = .ok ⟨false, none⟩)
    ∧ (cfg.enabled = true → cfg.cron ≠ "" → getNext cfg.cron = none →
      monitor_init_scheduler true getNext cfg
        = .error ("invalid cron: " ++ cfg.cron)) := by
  constructor
  · intro hen
    unfold monitor_init_scheduler validate_scheduled_report init_schedule
    simp [hen]
  · intro hen hcr hparse
    unfold monitor_init_scheduler validate_scheduled_report
    simp [hen, hcr, hparse]

/-- Witness for the amended C7: croniter missing → reporting disabled, ok;
croniter present with a bad expression → startup error. -/
theorem invalid_cron_startup_behavior_witness :
    monitor_init_scheduler false (fun _ => none) ⟨true, "0 9 * * *"⟩
      = .ok ⟨false, none⟩
    ∧ monitor_init_scheduler true (fun _ => none) ⟨true, "bad cron"⟩
      = .error ("invalid cron: " ++ "bad cron") := by
  exact ⟨(invalid_cron_startup_behavior (fun _ => none) ⟨true, "0 9 * * *"⟩).1 rfl,
    (invalid_cron_startup_behavior (fun _ => none) ⟨true, "bad cron"⟩).2 rfl
      (by decide) rfl⟩
